import Mathlib

/-!
Verification of the paper-trading engine of this repository against its
natural-language specification.

The file `backend/src/services/paperTrader.js` contains three concatenated
revisions of the engine:
  * lines 1-273: a brain-driven revision (delegates decisions to
    `tradeBrain.makeDecision`); modelled below in namespace `Brain`.
  * lines 274-871: the wallet-model revision (3-wallet system, fee-aware
    entry costs, `maybeEnter` / `maybeExit`); modelled in namespace `Wallet`.
    The spec states that it follows this variant as the most internally
    consistent one.
  * lines 872-1208: a hard-limits revision (not needed by the claims beyond
    what the other two already decide; its exit logic at lines 1141-1148 is
    the same take-profit / stop-loss pair with no expiry check).
A fourth, older revision lives in `src/unnamed/part_014`; its daily-reset
helper `checkDailyReset` is modelled in namespace `Rev14`.

Modelling conventions:
  * JavaScript numbers are modelled by exact rationals (`Rat`).  `Math.sqrt`
    is modelled by `Rat.sqrt` (exact on perfect squares; every concrete
    evaluation below only applies it to `0`, where it agrees with JS).
    JavaScript division by zero yields a non-finite value; rational division
    by zero yields `0`.  No theorem or concrete evaluation below exercises a
    division by zero: the source guards the denominators that the claims
    touch (`early || 1`), and concrete inputs use positive prices.
  * A possibly non-finite JS number (NaN / Infinity) is modelled by `JsNum`:
    either a finite rational or the absorbing element `JsNum.nan`.
    Comparisons against `nan` are false, as in JS.
  * JS objects used as string-keyed maps (`state.buf`,
    `state.lastPriceBySymbol`) are modelled as association lists.
  * `Date.now()` is passed explicitly as a `now` argument.
  * The day key (an ISO date string in the source) is modelled as the
    integer index of the calendar day, `floor (ts / 86400000)`.
  * I/O (file persistence, `narrate`, `save`) has no effect on the engine
    state and is omitted.
-/

/-- JS `Math.max(a, Math.min(b, n))` helper (`clamp` in every revision),
on finite numbers. -/
def jsClamp (n a b : ℚ) : ℚ := max a (min b n)

/-- `mean(arr)` from the source: `0` on the empty list. -/
def jsMean (l : List ℚ) : ℚ := if l.length = 0 then 0 else l.sum / l.length

/-- `std(arr)` from the source: population standard deviation,
`0` for fewer than two samples.  `Math.sqrt` is modelled by `Rat.sqrt`. -/
def jsStd (l : List ℚ) : ℚ :=
  if l.length < 2 then 0
  else
    let m := jsMean l
    Rat.sqrt (jsMean (l.map fun x => (x - m) ^ 2))

/-- A JS number that may be non-finite.  `nan` stands for any non-finite
value (NaN or an infinity); the paths proved below never distinguish the
two. -/
inductive JsNum where
  | num (q : ℚ)
  | nan
  deriving DecidableEq, Repr

namespace JsNum

/-- JS addition: non-finite absorbs. -/
def add : JsNum → JsNum → JsNum
  | num a, num b => num (a + b)
  | _, _ => nan

/-- JS subtraction: non-finite absorbs. -/
def sub : JsNum → JsNum → JsNum
  | num a, num b => num (a - b)
  | _, _ => nan

/-- JS multiplication: non-finite absorbs. -/
def mul : JsNum → JsNum → JsNum
  | num a, num b => num (a * b)
  | _, _ => nan

/-- JS division.  A zero divisor yields a non-finite value in JS
(±Infinity or NaN), collapsed to `nan` here. -/
def div : JsNum → JsNum → JsNum
  | num a, num b => if b = 0 then nan else num (a / b)
  | _, _ => nan

instance : Add JsNum := ⟨add⟩
instance : Sub JsNum := ⟨sub⟩
instance : Mul JsNum := ⟨mul⟩
instance : Div JsNum := ⟨div⟩

/-- `Math.max`: NaN-propagating. -/
def jmax : JsNum → JsNum → JsNum
  | num a, num b => num (max a b)
  | _, _ => nan

/-- `Math.min`: NaN-propagating. -/
def jmin : JsNum → JsNum → JsNum
  | num a, num b => num (min a b)
  | _, _ => nan

/-- `Math.abs`. -/
def jabs : JsNum → JsNum
  | num a => num |a|
  | nan => nan

/-- JS `<`: any comparison involving a non-finite NaN-like value is false. -/
def lt : JsNum → JsNum → Bool
  | num a, num b => a < b
  | _, _ => false

/-- JS `<=`. -/
def le : JsNum → JsNum → Bool
  | num a, num b => a ≤ b
  | _, _ => false

/-- JS `>`. -/
def gt : JsNum → JsNum → Bool
  | num a, num b => a > b
  | _, _ => false

/-- JS `>=`. -/
def ge : JsNum → JsNum → Bool
  | num a, num b => a ≥ b
  | _, _ => false

/-- `clamp` over possibly non-finite numbers
(`Math.max(a, Math.min(b, n))`). -/
def clamp (n a b : JsNum) : JsNum := jmax a (jmin b n)

end JsNum

/-- Update (or insert) a key in a JS-object-as-map. -/
def setAssoc {α : Type} (m : List (String × α)) (k : String) (v : α) : List (String × α) :=
  if m.any (fun kv => kv.1 = k) then
    m.map (fun kv => if kv.1 = k then (k, v) else kv)
  else m ++ [(k, v)]

/-- Lookup in a JS-object-as-map of price buffers; a missing key reads as
the empty buffer (`state.buf[symbol] || []`). -/
def lookupBuf (m : List (String × List ℚ)) (k : String) : List ℚ :=
  match m.find? (fun kv => kv.1 = k) with
  | some kv => kv.2
  | none => []

/-- Day key of a millisecond timestamp: the source formats a calendar date
string; the integer day index carries the same equality structure. -/
def dayKeyOf (ts : ℚ) : ℤ := ⌊ts / 86400000⌋

/-- `x || d` on a JS string option: `undefined`, `null` and `""` are falsy. -/
def jsOrString (o : Option String) (d : String) : String :=
  match o with
  | none => d
  | some s => if s = "" then d else s

/-! ## The wallet-model revision (`paperTrader.js` lines 274-871) -/

namespace Wallet

/-- Environment defaults of the wallet-model revision (`ENV DEFAULTS`
block); the environment is not set, so each `Number(process.env... || d)`
evaluates to its default `d`. -/
def START_TRADING_WALLET : ℚ := 100000

def START_STOREHOUSE_WALLET : ℚ := 100000

def START_OWNER_WALLET : ℚ := 0

def WARMUP_TICKS_DEFAULT : ℚ := 250

def BASE_RISK_PCT_DEFAULT : ℚ := 3 / 100

def MAX_RISK_PCT_DEFAULT : ℚ := 1 / 2

def TAKE_PROFIT_PCT_DEFAULT : ℚ := 4 / 1000

def STOP_LOSS_PCT_DEFAULT : ℚ := 3 / 1000

def MIN_EDGE_DEFAULT : ℚ := 7 / 10000

def FEE_RATE_DEFAULT : ℚ := 26 / 10000

def SLIPPAGE_BP_DEFAULT : ℚ := 8

def SPREAD_BP_DEFAULT : ℚ := 6

def COOLDOWN_MS_DEFAULT : ℚ := 12000

def MAX_USD_PER_TRADE_DEFAULT : ℚ := 300

def MAX_TRADES_PER_DAY_DEFAULT : ℚ := 40

def MAX_DRAWDOWN_PCT_DEFAULT : ℚ := 1 / 4

def MIN_USD_PER_TRADE_DEFAULT : ℚ := 50

def MIN_NET_TP_USD_DEFAULT : ℚ := 1

def TOPUP_AMOUNT_DEFAULT : ℚ := 1000

def TOPUP_TRIGGER_DEFAULT : ℚ := 100

def TRADING_WALLET_CAP_DEFAULT : ℚ := 150000

/-- The 3-wallet system (`state.wallets`). -/
structure Wallets where
  trading : ℚ
  storehouse : ℚ
  owner : ℚ

/-- `state.realized`. -/
structure Realized where
  wins : ℚ
  losses : ℚ
  grossProfit : ℚ
  grossLoss : ℚ
  net : ℚ

/-- `state.costs`. -/
structure Costs where
  feePaid : ℚ
  slippageCost : ℚ
  spreadCost : ℚ

/-- One entry of the `state.trades` log.  JS records carry different sets
of fields per record type; fields absent from a record are `none`. -/
structure TradeRec where
  time : ℚ
  symbol : String
  type : String
  price : ℚ
  qty : ℚ
  usd : ℚ
  cost : Option ℚ
  profit : Option ℚ
  gross : Option ℚ
  fees : Option ℚ
  note : String

/-- `state.position` when open. -/
structure Position where
  symbol : String
  qty : ℚ
  entry : ℚ
  entryTs : ℚ
  entryNotionalUsd : ℚ
  entryCosts : ℚ

/-- `state.learnStats`. -/
structure LearnStats where
  ticksSeen : ℚ
  confidence : ℚ
  volatility : ℚ
  trendEdge : ℚ
  decision : String
  lastReason : String
  lastTickTs : Option ℚ

/-- `state.config`: the editable numeric knobs.  `STATE_FILE` (a
persistence path string, never read by the trading logic) is omitted.
`extras` holds the keys merged into the config object that are not part of
the declared knob set — JS objects accept arbitrary keys and
`updateConfig` spreads the whole patch. -/
structure Config where
  WARMUP_TICKS : ℚ
  BASE_RISK_PCT : ℚ
  MAX_RISK_PCT : ℚ
  TAKE_PROFIT_PCT : ℚ
  STOP_LOSS_PCT : ℚ
  MIN_EDGE : ℚ
  FEE_RATE : ℚ
  SLIPPAGE_BP : ℚ
  SPREAD_BP : ℚ
  COOLDOWN_MS : ℚ
  MAX_USD_PER_TRADE : ℚ
  MAX_TRADES_PER_DAY : ℚ
  MAX_DRAWDOWN_PCT : ℚ
  MIN_USD_PER_TRADE : ℚ
  MIN_NET_TP_USD : ℚ
  TOPUP_AMOUNT : ℚ
  TOPUP_TRIGGER : ℚ
  TRADING_WALLET_CAP : ℚ
  extras : List (String × ℚ)

/-- `state.limits`. -/
structure Limits where
  tradesToday : ℚ
  dayKey : ℤ
  lastTradeTs : ℚ
  halted : Bool
  haltReason : Option String

/-- `state.streak`. -/
structure Streak where
  winsInRow : ℚ
  lossesInRow : ℚ

/-- The full engine state of the wallet-model revision. -/
structure State where
  running : Bool
  wallets : Wallets
  startBalance : ℚ
  pnl : ℚ
  realized : Realized
  costs : Costs
  trades : List TradeRec
  position : Option Position
  lastPriceBySymbol : List (String × ℚ)
  learnStats : LearnStats
  config : Config
  limits : Limits
  streak : Streak
  buf : List (String × List ℚ)

/-- `defaultState()`, parameterised by the boot wall-clock time used for
the initial day key. -/
def defaultState (bootNow : ℚ) : State :=
  { running := true
    wallets := { trading := START_TRADING_WALLET,
                 storehouse := START_STOREHOUSE_WALLET,
                 owner := START_OWNER_WALLET }
    startBalance := START_TRADING_WALLET
    pnl := 0
    realized := { wins := 0, losses := 0, grossProfit := 0, grossLoss := 0, net := 0 }
    costs := { feePaid := 0, slippageCost := 0, spreadCost := 0 }
    trades := []
    position := none
    lastPriceBySymbol := []
    learnStats := { ticksSeen := 0, confidence := 0, volatility := 0, trendEdge := 0,
                    decision := "WAIT", lastReason := "boot", lastTickTs := none }
    config := { WARMUP_TICKS := WARMUP_TICKS_DEFAULT,
                BASE_RISK_PCT := BASE_RISK_PCT_DEFAULT,
                MAX_RISK_PCT := MAX_RISK_PCT_DEFAULT,
                TAKE_PROFIT_PCT := TAKE_PROFIT_PCT_DEFAULT,
                STOP_LOSS_PCT := STOP_LOSS_PCT_DEFAULT,
                MIN_EDGE := MIN_EDGE_DEFAULT,
                FEE_RATE := FEE_RATE_DEFAULT,
                SLIPPAGE_BP := SLIPPAGE_BP_DEFAULT,
                SPREAD_BP := SPREAD_BP_DEFAULT,
                COOLDOWN_MS := COOLDOWN_MS_DEFAULT,
                MAX_USD_PER_TRADE := MAX_USD_PER_TRADE_DEFAULT,
                MAX_TRADES_PER_DAY := MAX_TRADES_PER_DAY_DEFAULT,
                MAX_DRAWDOWN_PCT := MAX_DRAWDOWN_PCT_DEFAULT,
                MIN_USD_PER_TRADE := MIN_USD_PER_TRADE_DEFAULT,
                MIN_NET_TP_USD := MIN_NET_TP_USD_DEFAULT,
                TOPUP_AMOUNT := TOPUP_AMOUNT_DEFAULT,
                TOPUP_TRIGGER := TOPUP_TRIGGER_DEFAULT,
                TRADING_WALLET_CAP := TRADING_WALLET_CAP_DEFAULT,
                extras := [] }
    limits := { tradesToday := 0, dayKey := dayKeyOf bootNow, lastTradeTs := 0,
                halted := false, haltReason := none }
    streak := { winsInRow := 0, lossesInRow := 0 }
    -- the source seeds `buf` with empty buffers for the two symbols;
    -- an absent key also reads as the empty buffer
    buf := [("BTCUSDT", []), ("ETHUSDT", [])] }

/-- `pushBuf(symbol, price)`: append, then evict the oldest entries while
the buffer holds more than 60. -/
def pushBufMap (m : List (String × List ℚ)) (symbol : String) (price : ℚ) :
    List (String × List ℚ) :=
  let b := lookupBuf m symbol
  let b := b ++ [price]
  let b := if 60 < b.length then b.drop (b.length - 60) else b
  if m.any (fun kv => kv.1 = symbol) then
    m.map (fun kv => if kv.1 = symbol then (symbol, b) else kv)
  else m ++ [(symbol, b)]

/-- Result record of `computeSignals`. -/
structure Signals where
  vol : ℚ
  edge : ℚ
  conf : ℚ
  reason : String

/-- The body of `computeSignals(symbol)` past the 10-price guard
(lines 484-506 of the wallet-model revision). -/
def computeSignalsFull (s : State) (symbol : String) : Signals :=
  let b := lookupBuf s.buf symbol
  let returns := (List.range (b.length - 1)).map fun i =>
    (b.getD (i + 1) 0 - b.getD i 0) / b.getD i 0
  let vol := jsStd returns
  let volNorm := jsClamp (vol / (2 / 1000)) 0 1
  let early := jsMean (b.take (b.length / 3))
  let late := jsMean (b.drop (2 * b.length / 3))
  let edge := (late - early) / (if early = 0 then 1 else early)
  let ticksFactor := jsClamp (s.learnStats.ticksSeen / s.config.WARMUP_TICKS) 0 1
  let trendFactor := jsClamp (|edge| / (s.config.MIN_EDGE * 2)) 0 1
  let noisePenalty := 1 - volNorm * (7 / 10)
  let conf := jsClamp (ticksFactor * (55 / 100) + trendFactor * (55 / 100)) 0 1 *
    jsClamp noisePenalty (2 / 10) 1
  let reason :=
    if s.learnStats.ticksSeen ≥ s.config.WARMUP_TICKS ∧ |edge| < s.config.MIN_EDGE then
      "trend_unclear"
    else if s.learnStats.ticksSeen ≥ s.config.WARMUP_TICKS ∧ volNorm > (85 / 100) then
      "too_noisy"
    else if s.learnStats.ticksSeen ≥ s.config.WARMUP_TICKS then "edge_detected"
    else "warmup"
  { vol := volNorm, edge := edge, conf := conf, reason := reason }

/-- `computeSignals(symbol)` of the wallet-model revision
(lines 480-507): the neutral "collecting more data" signal below 10
buffered prices, the full computation otherwise. -/
def computeSignals (s : State) (symbol : String) : Signals :=
  if (lookupBuf s.buf symbol).length < 10 then
    { vol := 0, edge := 0, conf := 0, reason := "collecting_more_data" }
  else computeSignalsFull s symbol

end Wallet

namespace Wallet

/-- `entryCostRate()` (lines 510-514). -/
def entryCostRate (cfg : Config) : ℚ :=
  cfg.FEE_RATE + cfg.SPREAD_BP / 10000 + cfg.SLIPPAGE_BP / 10000

/-- `totalRoundTripCostRate()` (lines 515-519). -/
def totalRoundTripCostRate (cfg : Config) : ℚ :=
  2 * cfg.FEE_RATE + cfg.SPREAD_BP / 10000 + cfg.SLIPPAGE_BP / 10000

/-- `applyEntryCosts(usdNotional)` (lines 520-532): accumulates the three
cost buckets and returns the updated costs together with the total. -/
def applyEntryCosts (cfg : Config) (costs : Costs) (usdNotional : ℚ) : Costs × ℚ :=
  let fee := usdNotional * cfg.FEE_RATE
  let spreadCost := usdNotional * (cfg.SPREAD_BP / 10000)
  let slippageCost := usdNotional * (cfg.SLIPPAGE_BP / 10000)
  ({ feePaid := costs.feePaid + fee,
     spreadCost := costs.spreadCost + spreadCost,
     slippageCost := costs.slippageCost + slippageCost },
   fee + spreadCost + slippageCost)

/-- `applyExitFee(usdNotional)` (lines 533-537). -/
def applyExitFee (cfg : Config) (costs : Costs) (usdNotional : ℚ) : Costs × ℚ :=
  let fee := usdNotional * cfg.FEE_RATE
  ({ costs with feePaid := costs.feePaid + fee }, fee)

/-- `sweepOverflow()` (lines 540-560), with `Date.now()` passed as `now`. -/
def sweepOverflow (now : ℚ) (s : State) : State :=
  let cap := s.config.TRADING_WALLET_CAP
  if cap = 0 ∨ cap ≤ 0 then s
  else if cap < s.wallets.trading then
    let overflow := s.wallets.trading - cap
    { s with
      wallets := { s.wallets with
                     trading := s.wallets.trading - overflow,
                     owner := s.wallets.owner + overflow },
      trades := s.trades ++ [{ time := now, symbol := "WALLET", type := "SWEEP",
                               price := 0, qty := 0, usd := overflow,
                               cost := none, profit := none, gross := none,
                               fees := none, note := "overflow_to_owner_wallet" }] }
  else s

/-- `maybeTopUpFromStorehouse()` (lines 562-581). -/
def maybeTopUpFromStorehouse (now : ℚ) (s : State) : State :=
  if s.config.TOPUP_TRIGGER < s.wallets.trading then s
  else if s.wallets.storehouse ≤ 0 then s
  else
    let amt := min s.config.TOPUP_AMOUNT s.wallets.storehouse
    if amt ≤ 0 then s
    else
      { s with
        wallets := { s.wallets with
                       storehouse := s.wallets.storehouse - amt,
                       trading := s.wallets.trading + amt },
        trades := s.trades ++ [{ time := now, symbol := "WALLET", type := "TOPUP",
                                 price := 0, qty := 0, usd := amt,
                                 cost := none, profit := none, gross := none,
                                 fees := none, note := "storehouse_to_trading_wallet" }] }

/-- `checkDaily(ts)` (lines 584-590): day rollover resets the day key and
the daily trade counter — and nothing else. -/
def checkDaily (ts : ℚ) (s : State) : State :=
  if s.limits.dayKey ≠ dayKeyOf ts then
    { s with limits := { s.limits with dayKey := dayKeyOf ts, tradesToday := 0 } }
  else s

/-- `checkDrawdown()` (lines 591-598): drawdown of the trading wallet
against the starting balance; at or above the ceiling the halted flag is
set (never cleared here). -/
def checkDrawdown (s : State) : State :=
  let peak := s.startBalance
  let dd := (peak - s.wallets.trading) / peak
  if dd ≥ s.config.MAX_DRAWDOWN_PCT then
    { s with limits := { s.limits with
        halted := true,
        haltReason := some ("max_drawdown_" ++
          toString (round (s.config.MAX_DRAWDOWN_PCT * 100)) ++ "%") } }
  else s

/-- `canTradeProfitablyAtTP()` (lines 599-602): the take-profit percentage
must strictly exceed the round-trip cost rate.  There is no extra buffer
multiplier in the source. -/
def canTradeProfitablyAtTP (cfg : Config) : Bool :=
  totalRoundTripCostRate cfg < cfg.TAKE_PROFIT_PCT

/-- `currentRiskPct()` (lines 605-614). -/
def currentRiskPct (s : State) : ℚ :=
  let base := s.config.BASE_RISK_PCT
  let mx := s.config.MAX_RISK_PCT
  let lossPenalty := min ((2 / 100) * s.streak.lossesInRow) (base * (8 / 10))
  let winBoost := min ((1 / 100) * s.streak.winsInRow) (mx - base)
  jsClamp (base - lossPenalty + winBoost) (5 / 1000) mx

/-- Writes the four signal fields into `learnStats`
(`maybeEnter` lines 618-623). -/
def setSignalStats (s : State) (sig : Signals) : State :=
  { s with learnStats := { s.learnStats with
      volatility := sig.vol, trendEdge := sig.edge,
      confidence := sig.conf, lastReason := sig.reason } }

/-- Sets `learnStats.decision := "WAIT"` with a reason
(the early-return pattern of `maybeEnter`). -/
def waitWith (s : State) (reason : String) : State :=
  { s with learnStats := { s.learnStats with decision := "WAIT", lastReason := reason } }

/-- The candidate notional of `maybeEnter` (lines 667-672): percent of
the trading wallet, raised to the minimum ticket and capped at the
maximum ticket, in that order. -/
def entryNotional (s : State) : ℚ :=
  min (max (s.wallets.trading * currentRiskPct s) s.config.MIN_USD_PER_TRADE)
    s.config.MAX_USD_PER_TRADE

/-- `expectedNetAtTP` of `maybeEnter` (lines 674-677). -/
def expectedNetAtTP (s : State) : ℚ :=
  entryNotional s * max 0 (s.config.TAKE_PROFIT_PCT - totalRoundTripCostRate s.config)

/-- The entry block of `maybeEnter` (lines 693-722): deduct entry costs,
create the position, append the BUY record, stamp the limits. -/
def enterPosition (symbol : String) (price : ℚ) (ts : ℚ) (s : State) : State :=
  let pct := currentRiskPct s
  let usdNotional := entryNotional s
  let qty := usdNotional / price
  let pair := applyEntryCosts s.config s.costs usdNotional
  let entryCosts := pair.2
  { s with
    costs := pair.1
    wallets := { s.wallets with trading := s.wallets.trading - entryCosts }
    position := some { symbol := symbol, qty := qty, entry := price,
                       entryTs := ts, entryNotionalUsd := usdNotional,
                       entryCosts := entryCosts }
    trades := s.trades ++ [{ time := ts, symbol := symbol, type := "BUY",
                             price := price, qty := qty, usd := usdNotional,
                             cost := some entryCosts, profit := none,
                             gross := none, fees := none,
                             note := "paper_entry_" ++
                               toString (round (pct * 10000) / 100) }]
    limits := { s.limits with
                  lastTradeTs := ts,
                  tradesToday := s.limits.tradesToday + 1 }
    learnStats := { s.learnStats with
                      decision := "BUY",
                      lastReason := "entered_long" } }

/-- `state.limits` after the `tp_too_small_for_fees` halt of `maybeEnter`
(lines 646-652). -/
def haltTpTooSmall (s : State) : State :=
  { s with limits := { s.limits with
                         halted := true,
                         haltReason := some "tp_too_small_for_fees" } }

/-- The gate chain of `maybeEnter` (lines 625-722), evaluated on the
state `s` that already carries the fresh signals in `learnStats` (so the
local `conf` / `edge` of the source are read back from
`s.learnStats.confidence` / `s.learnStats.trendEdge`, to which they were
just assigned). -/
def enterGates (now : ℚ) (symbol : String) (price : ℚ) (ts : ℚ) (s : State) : State :=
  if s.limits.halted then waitWith s (jsOrString s.limits.haltReason "halted")
  else if s.position.isSome then
    { s with learnStats := { s.learnStats with decision := "WAIT" } }
  else if s.learnStats.ticksSeen < s.config.WARMUP_TICKS then
    { s with learnStats := { s.learnStats with decision := "WAIT" } }
  else if now - s.limits.lastTradeTs < s.config.COOLDOWN_MS then
    waitWith s "cooldown"
  else if s.limits.tradesToday ≥ s.config.MAX_TRADES_PER_DAY then
    waitWith s "max_trades_today"
  else if ¬ canTradeProfitablyAtTP s.config then
    waitWith (haltTpTooSmall s) "tp_too_small_for_fees"
  else if s.learnStats.confidence < 55 / 100 then
    waitWith s "confidence_low"
  else if |s.learnStats.trendEdge| < s.config.MIN_EDGE then
    waitWith s "trend_below_threshold"
  else if expectedNetAtTP s < s.config.MIN_NET_TP_USD then
    waitWith s "trade_too_small_for_net_tp"
  else if s.wallets.trading ≤ entryNotional s * entryCostRate s.config + 1 then
    waitWith s "wallet_too_low_for_fees"
  else enterPosition symbol price ts s

/-- `maybeEnter(symbol, price, ts)` (lines 617-723): store the computed
signals in `learnStats`, then run the gate chain.  The cooldown check
uses the wall clock `Date.now()`, passed here as `now`. -/
def maybeEnter (now : ℚ) (symbol : String) (price : ℚ) (ts : ℚ) (s0 : State) : State :=
  enterGates now symbol price ts (setSignalStats s0 (computeSignals s0 symbol))

/-- The close-settlement block of `maybeExit` (lines 733-771): exit fee,
net result, wallet credit, realized and streak bookkeeping, SELL record,
position cleared. -/
def settleClose (price : ℚ) (ts : ℚ) (s : State) (pos : Position) : State :=
  let change := (price - pos.entry) / pos.entry
  let exitNotionalUsd := pos.qty * price
  let gross := (price - pos.entry) * pos.qty
  let pair := applyExitFee s.config s.costs exitNotionalUsd
  let exitFee := pair.2
  let net := gross - pos.entryCosts - exitFee
  { s with
    costs := pair.1
    wallets := { s.wallets with trading := s.wallets.trading + net }
    realized :=
      if net ≥ 0 then
        { s.realized with
            net := s.realized.net + net,
            wins := s.realized.wins + 1,
            grossProfit := s.realized.grossProfit + net }
      else
        { s.realized with
            net := s.realized.net + net,
            losses := s.realized.losses + 1,
            grossLoss := s.realized.grossLoss + net }
    pnl := s.realized.net + net
    streak :=
      if net ≥ 0 then { winsInRow := s.streak.winsInRow + 1, lossesInRow := 0 }
      else { winsInRow := 0, lossesInRow := s.streak.lossesInRow + 1 }
    trades := s.trades ++ [{ time := ts, symbol := pos.symbol, type := "SELL",
                             price := price, qty := pos.qty,
                             usd := exitNotionalUsd, cost := none,
                             profit := some net, gross := some gross,
                             fees := some exitFee,
                             note := if change ≥ s.config.TAKE_PROFIT_PCT then
                                 "take_profit" else "stop_loss" }]
    position := none
    learnStats := { s.learnStats with
                      decision := "SELL",
                      lastReason := if change ≥ s.config.TAKE_PROFIT_PCT then
                          "tp_hit" else "sl_hit" } }

/-- `maybeExit(symbol, price, ts)` (lines 725-782).  The only exit
triggers are take-profit and stop-loss on the price change; there is no
expiry condition.  After a close the drawdown check and the wallet rules
run; `now` is the wall clock used for the timestamps of the wallet-rule
records. -/
def maybeExit (now : ℚ) (symbol : String) (price : ℚ) (ts : ℚ) (s : State) : State :=
  match s.position with
  | none => s
  | some pos =>
    if pos.symbol ≠ symbol then s
    else if (price - pos.entry) / pos.entry ≥ s.config.TAKE_PROFIT_PCT ∨
        (price - pos.entry) / pos.entry ≤ -s.config.STOP_LOSS_PCT then
      maybeTopUpFromStorehouse now (sweepOverflow now
        (checkDrawdown (settleClose price ts s pos)))
    else
      { s with learnStats := { s.learnStats with decision := "WAIT" } }

/-- The bookkeeping block of `tick` (lines 803-807): last price, tick
counter, last tick timestamp, price buffer. -/
def recordTick (symbol : String) (price : ℚ) (ts : ℚ) (s : State) : State :=
  { s with
    lastPriceBySymbol := setAssoc s.lastPriceBySymbol symbol price,
    learnStats := { s.learnStats with
                      ticksSeen := s.learnStats.ticksSeen + 1,
                      lastTickTs := some ts },
    buf := pushBufMap s.buf symbol price }

/-- The trade-log trim of `tick` (line 813). -/
def trimTrades (s : State) : State :=
  if 4000 < s.trades.length then
    { s with trades := s.trades.drop (s.trades.length - 1500) }
  else s

/-- `tick(a, b, c)` (lines 785-816), in its three-argument form
`tick(symbol, price, ts)`.  A non-finite price returns before any state
mutation.  `now` is the wall clock (`Date.now()`). -/
def tick (now : ℚ) (a : String) (b : JsNum) (c : ℚ) (s : State) : State :=
  if ¬ s.running then s
  else
    let symbol := if a = "" then "BTCUSDT" else a
    match b with
    | JsNum.nan => s
    | JsNum.num price =>
      let ts := if c = 0 then now else c
      trimTrades (maybeEnter now symbol price ts
        (maybeExit now symbol price ts
          (recordTick symbol price ts (checkDaily ts s))))

/-- The patch argument of `updateConfig`: a partial JS object.  Declared
knobs that the patch carries are `some`; arbitrary further keys land in
`extras`. -/
structure ConfigPatch where
  WARMUP_TICKS : Option ℚ := none
  BASE_RISK_PCT : Option ℚ := none
  MAX_RISK_PCT : Option ℚ := none
  TAKE_PROFIT_PCT : Option ℚ := none
  STOP_LOSS_PCT : Option ℚ := none
  MIN_EDGE : Option ℚ := none
  FEE_RATE : Option ℚ := none
  SLIPPAGE_BP : Option ℚ := none
  SPREAD_BP : Option ℚ := none
  COOLDOWN_MS : Option ℚ := none
  MAX_USD_PER_TRADE : Option ℚ := none
  MAX_TRADES_PER_DAY : Option ℚ := none
  MAX_DRAWDOWN_PCT : Option ℚ := none
  MIN_USD_PER_TRADE : Option ℚ := none
  MIN_NET_TP_USD : Option ℚ := none
  TOPUP_AMOUNT : Option ℚ := none
  TOPUP_TRIGGER : Option ℚ := none
  TRADING_WALLET_CAP : Option ℚ := none
  extras : List (String × ℚ) := []

/-- The object spread `{ ...state.config, ...patch }`: every key of the
patch overwrites or extends the config, including keys outside the
declared knob set. -/
def spreadConfig (cfg : Config) (p : ConfigPatch) : Config :=
  { WARMUP_TICKS := p.WARMUP_TICKS.getD cfg.WARMUP_TICKS
    BASE_RISK_PCT := p.BASE_RISK_PCT.getD cfg.BASE_RISK_PCT
    MAX_RISK_PCT := p.MAX_RISK_PCT.getD cfg.MAX_RISK_PCT
    TAKE_PROFIT_PCT := p.TAKE_PROFIT_PCT.getD cfg.TAKE_PROFIT_PCT
    STOP_LOSS_PCT := p.STOP_LOSS_PCT.getD cfg.STOP_LOSS_PCT
    MIN_EDGE := p.MIN_EDGE.getD cfg.MIN_EDGE
    FEE_RATE := p.FEE_RATE.getD cfg.FEE_RATE
    SLIPPAGE_BP := p.SLIPPAGE_BP.getD cfg.SLIPPAGE_BP
    SPREAD_BP := p.SPREAD_BP.getD cfg.SPREAD_BP
    COOLDOWN_MS := p.COOLDOWN_MS.getD cfg.COOLDOWN_MS
    MAX_USD_PER_TRADE := p.MAX_USD_PER_TRADE.getD cfg.MAX_USD_PER_TRADE
    MAX_TRADES_PER_DAY := p.MAX_TRADES_PER_DAY.getD cfg.MAX_TRADES_PER_DAY
    MAX_DRAWDOWN_PCT := p.MAX_DRAWDOWN_PCT.getD cfg.MAX_DRAWDOWN_PCT
    MIN_USD_PER_TRADE := p.MIN_USD_PER_TRADE.getD cfg.MIN_USD_PER_TRADE
    MIN_NET_TP_USD := p.MIN_NET_TP_USD.getD cfg.MIN_NET_TP_USD
    TOPUP_AMOUNT := p.TOPUP_AMOUNT.getD cfg.TOPUP_AMOUNT
    TOPUP_TRIGGER := p.TOPUP_TRIGGER.getD cfg.TOPUP_TRIGGER
    TRADING_WALLET_CAP := p.TRADING_WALLET_CAP.getD cfg.TRADING_WALLET_CAP
    extras := cfg.extras.filter (fun kv => ¬ p.extras.any (fun kv2 => kv2.1 = kv.1))
      ++ p.extras }

/-- `x || d` on a number: `0` (and `NaN`) are falsy. -/
def jsOrNum (x d : ℚ) : ℚ := if x = 0 then d else x

/-- `updateConfig(patch)` (lines 830-845): spreads the whole patch into
the config, then clamps `BASE_RISK_PCT` to `[0.005, 0.5]`,
`MAX_RISK_PCT` to `[BASE_RISK_PCT, 0.9]`, `TRADING_WALLET_CAP` to `≥ 0`
and `MAX_TRADES_PER_DAY` to `≥ 1`.  No key is rejected or filtered. -/
def updateConfig (p : ConfigPatch) (s : State) : State :=
  let cfg := spreadConfig s.config p
  let cfg := { cfg with
    BASE_RISK_PCT := jsClamp (jsOrNum cfg.BASE_RISK_PCT (3 / 100)) (5 / 1000) (1 / 2) }
  let cfg := { cfg with
    MAX_RISK_PCT := jsClamp (jsOrNum cfg.MAX_RISK_PCT (1 / 2)) cfg.BASE_RISK_PCT (9 / 10) }
  let cfg := { cfg with
    TRADING_WALLET_CAP := max 0 (jsOrNum cfg.TRADING_WALLET_CAP TRADING_WALLET_CAP_DEFAULT) }
  let cfg := { cfg with
    MAX_TRADES_PER_DAY := max 1 (jsOrNum cfg.MAX_TRADES_PER_DAY MAX_TRADES_PER_DAY_DEFAULT) }
  { s with config := cfg }

/-- `hardReset()` (lines 824-827). -/
def hardReset (bootNow : ℚ) (_s : State) : State := defaultState bootNow

/-- Total money across the three wallets. -/
def walletsTotal (w : Wallets) : ℚ := w.trading + w.storehouse + w.owner

/-- Number of open positions in a state: `0` or `1` by construction of the
single nullable `position` field. -/
def openPositionCount (s : State) : ℕ := if s.position.isSome then 1 else 0

/-- One tick input: wall clock, symbol, price, timestamp argument. -/
def applyTicks (s : State) (l : List (ℚ × String × JsNum × ℚ)) : State :=
  l.foldl (fun st i => tick i.1 i.2.1 i.2.2.1 i.2.2.2 st) s

end Wallet

/-! ## The brain-driven revision (`paperTrader.js` lines 1-273)

This revision delegates the trade decision to `tradeBrain.makeDecision`,
injected here as a function argument.  Its tick path performs no
finiteness check on the price, so money fields are modelled as `JsNum` to
track NaN propagation. -/

namespace Brain

def START_BAL : ℚ := 100000

def WARMUP_TICKS : ℚ := 250

def FEE_RATE : ℚ := 26 / 10000

def SLIPPAGE_BP : ℚ := 8

def SPREAD_BP : ℚ := 6

def COOLDOWN_MS : ℚ := 12000

def MAX_TRADES_DAY : ℚ := 40

def MAX_DRAWDOWN_PCT : ℚ := 1 / 4

/-- `state.realized` of this revision. -/
structure Realized where
  wins : ℚ
  losses : ℚ
  net : JsNum

/-- `state.costs` of this revision. -/
structure Costs where
  fees : JsNum
  slippage : JsNum
  spread : JsNum

/-- `state.position` of this revision: `{symbol, entry, qty, ts}`. -/
structure Position where
  symbol : String
  entry : JsNum
  qty : JsNum
  ts : ℚ

/-- `state.learnStats` of this revision. -/
structure LearnStats where
  ticksSeen : ℚ
  confidence : ℚ
  decision : String
  lastReason : String

/-- `state.limits` of this revision. -/
structure Limits where
  dayKey : ℤ
  tradesToday : ℚ
  halted : Bool
  haltReason : Option String
  lastTradeTs : ℚ

/-- The engine state of the brain-driven revision. -/
structure State where
  running : Bool
  cashBalance : JsNum
  equity : JsNum
  peakEquity : JsNum
  realized : Realized
  costs : Costs
  position : Option Position
  lastPriceBySymbol : List (String × JsNum)
  learnStats : LearnStats
  limits : Limits

/-- `defaultState()` (lines 45-74). -/
def defaultState (bootNow : ℚ) : State :=
  { running := true
    cashBalance := JsNum.num START_BAL
    equity := JsNum.num START_BAL
    peakEquity := JsNum.num START_BAL
    realized := { wins := 0, losses := 0, net := JsNum.num 0 }
    costs := { fees := JsNum.num 0, slippage := JsNum.num 0, spread := JsNum.num 0 }
    position := none
    lastPriceBySymbol := []
    learnStats := { ticksSeen := 0, confidence := 0, decision := "WAIT",
                    lastReason := "boot" }
    limits := { dayKey := dayKeyOf bootNow, tradesToday := 0, halted := false,
                haltReason := none, lastTradeTs := 0 } }

/-- `resetDayIfNeeded(ts)` (lines 101-107). -/
def resetDayIfNeeded (ts : ℚ) (s : State) : State :=
  if s.limits.dayKey ≠ dayKeyOf ts then
    { s with limits := { s.limits with dayKey := dayKeyOf ts, tradesToday := 0 } }
  else s

/-- `updateEquity(price)` (lines 109-118).  With an open position a
non-finite price propagates into `equity` and then (`Math.max` with NaN)
into `peakEquity`. -/
def updateEquity (price : JsNum) (s : State) : State :=
  let equity :=
    match s.position with
    | some pos => s.cashBalance + (price - pos.entry) * pos.qty
    | none => s.cashBalance
  { s with equity := equity, peakEquity := JsNum.jmax s.peakEquity equity }

/-- `checkDrawdown()` (lines 120-135). -/
def checkDrawdown (s : State) : State :=
  if s.limits.halted then s
  else
    let dd := (s.peakEquity - s.equity) / s.peakEquity
    if JsNum.ge dd (JsNum.num MAX_DRAWDOWN_PCT) then
      { s with limits := { s.limits with
          halted := true, haltReason := some "max_drawdown" } }
    else s

/-- `canTrade(ts)` (lines 137-142). -/
def canTrade (ts : ℚ) (s : State) : Bool :=
  if s.limits.halted then false
  else if s.limits.tradesToday ≥ MAX_TRADES_DAY then false
  else if ts - s.limits.lastTradeTs < COOLDOWN_MS then false
  else true

/-- `openPosition(symbol, price, riskPct)` (lines 146-172).  The position
timestamp and `lastTradeTs` use the wall clock (`Date.now()`), passed as
`now`. -/
def openPosition (now : ℚ) (symbol : String) (price : JsNum) (riskPct : ℚ)
    (s : State) : State :=
  let usd := JsNum.clamp (s.cashBalance * JsNum.num riskPct) (JsNum.num 25)
    (s.cashBalance - JsNum.num 10)
  if JsNum.le usd (JsNum.num 0) then s
  else
    let spread := price * JsNum.num (SPREAD_BP / 10000)
    let slippage := price * JsNum.num (SLIPPAGE_BP / 10000)
    let fill := price + spread + slippage
    let qty := usd / fill
    let fee := usd * JsNum.num FEE_RATE
    { s with
      cashBalance := s.cashBalance - (usd + fee)
      costs := { fees := s.costs.fees + fee,
                 spread := s.costs.spread + spread * qty,
                 slippage := s.costs.slippage + slippage * qty }
      position := some { symbol := symbol, entry := fill, qty := qty, ts := now }
      limits := { s.limits with
                    tradesToday := s.limits.tradesToday + 1,
                    lastTradeTs := now } }

/-- `closePosition(price, reason)` (lines 174-197).  The exit fee is
computed on `|gross|`; the cash balance receives `qty * price - fee`
(current market value of the position minus the fee), while the recorded
profit is `gross - fee`. -/
def closePosition (price : JsNum) (_reason : String) (s : State) : State :=
  match s.position with
  | none => s
  | some pos =>
    let gross := (price - pos.entry) * pos.qty
    let fee := JsNum.jabs gross * JsNum.num FEE_RATE
    let pnl := gross - fee
    let realized :=
      if JsNum.gt pnl (JsNum.num 0) then
        { s.realized with net := s.realized.net + pnl, wins := s.realized.wins + 1 }
      else
        { s.realized with net := s.realized.net + pnl, losses := s.realized.losses + 1 }
    { s with
      cashBalance := s.cashBalance + (pos.qty * price - fee)
      costs := { s.costs with fees := s.costs.fees + fee }
      realized := realized
      position := none }

/-- The strict execution plan returned by `tradeBrain.makeDecision`. -/
structure Plan where
  action : String
  confidence : ℚ
  riskPct : ℚ
  blockedReason : String

/-- The injected decision brain (`makeDecision` of `tradeBrain.js`),
abstracted as a pure function of the tick context. -/
def BrainFn : Type := String → JsNum → State → Plan

/-- `tick(symbol, price, ts)` (lines 201-244).  No finiteness check is
performed on the price: the three bookkeeping mutations, the equity
update and the drawdown check all run before any decision is taken. -/
def tick (brain : BrainFn) (now : ℚ) (symbol : String) (price : JsNum) (ts : ℚ)
    (s : State) : State :=
  if ¬ s.running then s
  else
    let s := resetDayIfNeeded ts s
    let s := { s with
      lastPriceBySymbol := setAssoc s.lastPriceBySymbol symbol price,
      learnStats := { s.learnStats with ticksSeen := s.learnStats.ticksSeen + 1 } }
    let s := updateEquity price s
    let s := checkDrawdown s
    if s.learnStats.ticksSeen < WARMUP_TICKS then s
    else
      let plan := brain symbol price s
      let s := { s with learnStats := { s.learnStats with
                   decision := plan.action,
                   confidence := plan.confidence,
                   lastReason := if plan.blockedReason = "" then plan.action
                     else plan.blockedReason } }
      if ¬ canTrade ts s then s
      else
        let s :=
          if plan.action = "BUY" ∧ s.position.isNone then
            openPosition now symbol price plan.riskPct s
          else s
        let posMatches : Bool :=
          match s.position with
          | some pos => pos.symbol == symbol
          | none => false
        if (plan.action = "SELL" ∨ plan.action = "CLOSE") ∧ posMatches then
          closePosition price plan.action s
        else s

end Brain

/-! ## The `src/unnamed/part_014` revision -/

namespace Rev14

/-- `state.limits` of the `part_014` revision. -/
structure Limits where
  tradesToday : ℚ
  dayKey : ℤ
  lastTradeTs : ℚ
  halted : Bool
  haltReason : Option String

/-- `checkDailyReset(ts)` of `src/unnamed/part_014` (lines 187-196): on a
calendar-day change it resets the day key, the daily counter, the last
trade timestamp — and also clears `halted` and `haltReason`. -/
def checkDailyReset (ts : ℚ) (l : Limits) : Limits :=
  if l.dayKey ≠ dayKeyOf ts then
    { tradesToday := 0, dayKey := dayKeyOf ts, lastTradeTs := 0,
      halted := false, haltReason := none }
  else l

end Rev14

/-! ## Frame lemmas -/

theorem jsClamp_le_right {n a b : ℚ} (h : a ≤ b) : jsClamp n a b ≤ b := by
  unfold jsClamp
  exact max_le h (min_le_left _ _)

theorem le_jsClamp_left (n a b : ℚ) : a ≤ jsClamp n a b := le_max_left _ _

theorem jsClamp_nonneg {n b : ℚ} : 0 ≤ jsClamp n 0 b := le_jsClamp_left n 0 b

namespace Wallet

theorem checkDaily_position (ts : ℚ) (s : State) :
    (checkDaily ts s).position = s.position := by
  unfold checkDaily; split <;> rfl

theorem checkDaily_halted (ts : ℚ) (s : State) :
    (checkDaily ts s).limits.halted = s.limits.halted := by
  unfold checkDaily; split <;> rfl

theorem checkDrawdown_position (s : State) :
    (checkDrawdown s).position = s.position := by
  simp only [checkDrawdown]
  split <;> rfl

theorem checkDrawdown_wallets (s : State) :
    (checkDrawdown s).wallets = s.wallets := by
  simp only [checkDrawdown]
  split <;> rfl

theorem checkDrawdown_trades (s : State) :
    (checkDrawdown s).trades = s.trades := by
  simp only [checkDrawdown]
  split <;> rfl

theorem checkDrawdown_halted_true {s : State} (h : s.limits.halted = true) :
    (checkDrawdown s).limits.halted = true := by
  simp only [checkDrawdown]
  split <;> simp [h]

theorem sweepOverflow_position (now : ℚ) (s : State) :
    (sweepOverflow now s).position = s.position := by
  simp only [sweepOverflow]
  split
  · rfl
  · split <;> rfl

theorem sweepOverflow_limits (now : ℚ) (s : State) :
    (sweepOverflow now s).limits = s.limits := by
  simp only [sweepOverflow]
  split
  · rfl
  · split <;> rfl

theorem sweepOverflow_total (now : ℚ) (s : State) :
    walletsTotal (sweepOverflow now s).wallets = walletsTotal s.wallets := by
  simp only [sweepOverflow, walletsTotal]
  split
  · rfl
  · split
    · dsimp only
      ring
    · rfl

theorem sweepOverflow_of_le {now : ℚ} {s : State}
    (h : s.wallets.trading ≤ s.config.TRADING_WALLET_CAP) :
    sweepOverflow now s = s := by
  simp only [sweepOverflow]
  split
  · rfl
  · split
    · rename_i hc hlt
      exact absurd hlt (not_lt.mpr h)
    · rfl

theorem maybeTopUp_position (now : ℚ) (s : State) :
    (maybeTopUpFromStorehouse now s).position = s.position := by
  simp only [maybeTopUpFromStorehouse]
  split
  · rfl
  · split
    · rfl
    · split <;> rfl

theorem maybeTopUp_limits (now : ℚ) (s : State) :
    (maybeTopUpFromStorehouse now s).limits = s.limits := by
  simp only [maybeTopUpFromStorehouse]
  split
  · rfl
  · split
    · rfl
    · split <;> rfl

theorem maybeTopUp_total (now : ℚ) (s : State) :
    walletsTotal (maybeTopUpFromStorehouse now s).wallets = walletsTotal s.wallets := by
  simp only [maybeTopUpFromStorehouse, walletsTotal]
  split
  · rfl
  · split
    · rfl
    · split
      · rfl
      · dsimp only
        ring

theorem maybeTopUp_of_gt {now : ℚ} {s : State}
    (h : s.config.TOPUP_TRIGGER < s.wallets.trading) :
    maybeTopUpFromStorehouse now s = s := by
  simp only [maybeTopUpFromStorehouse]
  split
  · rfl
  · rename_i hng
    exact absurd h hng

end Wallet


namespace Wallet

theorem setSignalStats_position (s : State) (sig : Signals) :
    (setSignalStats s sig).position = s.position := rfl

theorem setSignalStats_limits (s : State) (sig : Signals) :
    (setSignalStats s sig).limits = s.limits := rfl

theorem setSignalStats_trades (s : State) (sig : Signals) :
    (setSignalStats s sig).trades = s.trades := rfl

theorem waitWith_position (s : State) (r : String) :
    (waitWith s r).position = s.position := rfl

theorem waitWith_limits (s : State) (r : String) :
    (waitWith s r).limits = s.limits := rfl

theorem waitWith_trades (s : State) (r : String) :
    (waitWith s r).trades = s.trades := rfl

theorem enterGates_position_of_some {now : ℚ} {symbol : String} {price ts : ℚ}
    {s : State} {pos : Position} (h : s.position = some pos) :
    (enterGates now symbol price ts s).position = some pos := by
  unfold enterGates
  split
  · exact h
  · split
    · exact h
    · rename_i hns
      exact absurd (by simp [h]) hns

theorem maybeEnter_position_of_some {now : ℚ} {symbol : String} {price ts : ℚ}
    {s : State} {pos : Position} (h : s.position = some pos) :
    (maybeEnter now symbol price ts s).position = some pos :=
  enterGates_position_of_some (by rw [setSignalStats_position]; exact h)

theorem enterGates_frame_halted {now : ℚ} {symbol : String} {price ts : ℚ}
    {s : State} (h : s.limits.halted = true) :
    enterGates now symbol price ts s =
      waitWith s (jsOrString s.limits.haltReason "halted") := by
  unfold enterGates
  split
  · rfl
  · rename_i hn
    exact absurd h hn

theorem maybeExit_skip {now : ℚ} {symbol : String} {price ts : ℚ}
    {s : State} {pos : Position} (h : s.position = some pos)
    (hsym : pos.symbol ≠ symbol) :
    maybeExit now symbol price ts s = s := by
  unfold maybeExit
  split
  · rfl
  · rename_i pos2 heq
    rw [h] at heq
    injection heq with heq2
    subst heq2
    split
    · rfl
    · rename_i hne
      exact absurd hsym hne

theorem maybeExit_position_of_other {now : ℚ} {symbol : String} {price ts : ℚ}
    {s : State} {pos : Position} (h : s.position = some pos)
    (hsym : pos.symbol ≠ symbol) :
    (maybeExit now symbol price ts s).position = some pos := by
  rw [maybeExit_skip h hsym]
  exact h

theorem settleClose_position (price ts : ℚ) (s : State) (pos : Position) :
    (settleClose price ts s pos).position = none := rfl

theorem settleClose_limits (price ts : ℚ) (s : State) (pos : Position) :
    (settleClose price ts s pos).limits = s.limits := rfl

theorem maybeExit_position_cases (now : ℚ) (symbol : String) (price ts : ℚ)
    (s : State) :
    (maybeExit now symbol price ts s).position = s.position ∨
      (maybeExit now symbol price ts s).position = none := by
  unfold maybeExit
  split
  · exact Or.inl rfl
  · split
    · exact Or.inl rfl
    · split
      · right
        rw [maybeTopUp_position, sweepOverflow_position, checkDrawdown_position,
          settleClose_position]
      · exact Or.inl rfl

theorem recordTick_position (symbol : String) (price ts : ℚ) (s : State) :
    (recordTick symbol price ts s).position = s.position := rfl

theorem recordTick_limits (symbol : String) (price ts : ℚ) (s : State) :
    (recordTick symbol price ts s).limits = s.limits := rfl

theorem trimTrades_position (s : State) :
    (trimTrades s).position = s.position := by
  unfold trimTrades
  split <;> rfl

theorem trimTrades_limits (s : State) :
    (trimTrades s).limits = s.limits := by
  unfold trimTrades
  split <;> rfl

theorem tick_position_of_other_symbol {now : ℚ} {a : String} {b : JsNum} {c : ℚ}
    {s : State} {pos : Position} (h : s.position = some pos)
    (ha : a ≠ "") (hsym : pos.symbol ≠ a) :
    (tick now a b c s).position = some pos := by
  unfold tick
  split
  · exact h
  · cases b with
    | nan => exact h
    | num p =>
      simp only [if_neg ha]
      rw [trimTrades_position]
      exact maybeEnter_position_of_some (maybeExit_position_of_other
        (by rw [recordTick_position, checkDaily_position]; exact h) hsym)

end Wallet

/-! ## Concrete states used by witnesses and counterexamples -/

/-- A position open on BTCUSDT: 30 units bought at 100 for a notional of
3000 with 12 of entry costs. -/
def egPosition : Wallet.Position :=
  { symbol := "BTCUSDT", qty := 30, entry := 100, entryTs := 0,
    entryNotionalUsd := 3000, entryCosts := 12 }

/-- The default wallet-model state, booted at epoch 0. -/
def egBase : Wallet.State := Wallet.defaultState 0

/-- The default wallet-model state with `egPosition` open. -/
def egOpenState : Wallet.State := { egBase with position := some egPosition }

/-- A trivial injected decision brain that always answers WAIT. -/
def egBrain : Brain.BrainFn :=
  fun _ _ _ => { action := "WAIT", confidence := 0, riskPct := 0, blockedReason := "" }

/-! ## Claims -/

/-- C1: single-position invariant.  For every tick sequence from the
default state at most one open position exists (the state holds a single
nullable position slot); the entry path (`maybeEnter`) leaves an already
open position untouched, creating one only when the slot is empty; and
the exit path (`maybeExit`) either leaves the slot as it was or clears it
to `none`. -/
theorem c1_single_position_invariant :
    (∀ (bootNow : ℚ) (l : List (ℚ × String × JsNum × ℚ)),
        Wallet.openPositionCount (Wallet.applyTicks (Wallet.defaultState bootNow) l) ≤ 1) ∧
    (∀ (now : ℚ) (symbol : String) (price ts : ℚ) (s : Wallet.State)
        (pos : Wallet.Position),
        s.position = some pos →
        (Wallet.maybeEnter now symbol price ts s).position = some pos) ∧
    (∀ (now : ℚ) (symbol : String) (price ts : ℚ) (s : Wallet.State),
        (Wallet.maybeExit now symbol price ts s).position = s.position ∨
        (Wallet.maybeExit now symbol price ts s).position = none) := by
  refine ⟨?_, ?_, ?_⟩
  · intro bootNow l
    unfold Wallet.openPositionCount
    split <;> simp
  · intro now symbol price ts s pos h
    exact Wallet.maybeEnter_position_of_some h
  · intro now symbol price ts s
    exact Wallet.maybeExit_position_cases now symbol price ts s

/-- Witness for C1: with `egPosition` already open, an entry attempt on a
fresh symbol leaves the open position in place. -/
theorem c1_single_position_invariant_witness :
    egOpenState.position = some egPosition ∧
    (Wallet.maybeEnter 99 "ETHUSDT" 5 99 egOpenState).position = some egPosition :=
  ⟨rfl, c1_single_position_invariant.2.1 99 "ETHUSDT" 5 99 egOpenState egPosition rfl⟩

/-- C2: symbol isolation.  With a position open for symbol A, a tick for
any other (non-empty) symbol B leaves the position record unchanged:
`maybeExit` returns early on the symbol mismatch and `maybeEnter` refuses
to touch an occupied slot. -/
theorem c2_symbol_isolation :
    ∀ (now : ℚ) (a : String) (b : JsNum) (c : ℚ) (s : Wallet.State)
      (pos : Wallet.Position),
      s.position = some pos → a ≠ "" → pos.symbol ≠ a →
      (Wallet.tick now a b c s).position = some pos := by
  intro now a b c s pos h ha hsym
  exact Wallet.tick_position_of_other_symbol h ha hsym

/-- Witness for C2: a BTCUSDT position survives an ETHUSDT tick
unchanged. -/
theorem c2_symbol_isolation_witness :
    egOpenState.position = some egPosition ∧ egPosition.symbol ≠ "ETHUSDT" ∧
    (Wallet.tick 50 "ETHUSDT" (JsNum.num 200) 50 egOpenState).position =
      some egPosition :=
  ⟨rfl, by decide,
    c2_symbol_isolation 50 "ETHUSDT" (JsNum.num 200) 50 egOpenState egPosition rfl
      (by decide) (by decide)⟩

/-- C10: stopped-engine no-op.  When `running` is false, `tick` returns
the state unchanged, in both the wallet-model revision and the
brain-driven revision. -/
theorem c10_stopped_engine_noop :
    ∀ (sw : Wallet.State) (sb : Brain.State) (brain : Brain.BrainFn)
      (now : ℚ) (a : String) (b : JsNum) (c : ℚ) (symbol : String)
      (price : JsNum) (ts : ℚ),
      sw.running = false → sb.running = false →
      Wallet.tick now a b c sw = sw ∧ Brain.tick brain now symbol price ts sb = sb := by
  intro sw sb brain now a b c symbol price ts hw hb
  constructor
  · unfold Wallet.tick
    simp [hw]
  · unfold Brain.tick
    simp [hb]

/-- Witness for C10: both default states, with `running` switched off,
absorb a tick without change. -/
theorem c10_stopped_engine_noop_witness :
    Wallet.tick 7 "BTCUSDT" (JsNum.num 100) 7
        { egBase with running := false } = { egBase with running := false } ∧
    Brain.tick egBrain 7 "BTCUSDT" (JsNum.num 100) 7
        { Brain.defaultState 0 with running := false } =
      { Brain.defaultState 0 with running := false } :=
  c10_stopped_engine_noop { egBase with running := false }
    { Brain.defaultState 0 with running := false } egBrain 7 "BTCUSDT"
    (JsNum.num 100) 7 "BTCUSDT" (JsNum.num 100) 7 rfl rfl

namespace JsNum

theorem nan_sub (x : JsNum) : nan - x = nan := by cases x <;> rfl

theorem sub_nan (x : JsNum) : x - nan = nan := by cases x <;> rfl

theorem nan_mul (x : JsNum) : nan * x = nan := by cases x <;> rfl

theorem add_nan (x : JsNum) : x + nan = nan := by cases x <;> rfl

theorem nan_div (x : JsNum) : nan / x = nan := by cases x <;> rfl

theorem jmax_nan (x : JsNum) : jmax x nan = nan := by cases x <;> rfl

theorem ge_nan (x : JsNum) : ge nan x = false := by cases x <;> rfl

end JsNum

/-- C5 (amended part): in the wallet-model revision a non-finite price is
silently ignored — `tick` returns before any state mutation at all, which
in particular mutates nothing beyond signal bookkeeping. -/
theorem c5_nonfinite_price_ignored :
    ∀ (now : ℚ) (a : String) (c : ℚ) (s : Wallet.State),
      Wallet.tick now a JsNum.nan c s = s := by
  intro now a c s
  unfold Wallet.tick
  split <;> rfl

/-- A brain-revision position open on BTCUSDT. -/
def egBrainPos : Brain.Position :=
  { symbol := "BTCUSDT", entry := JsNum.num 100, qty := JsNum.num 1, ts := 0 }

/-- The brain-revision default state with `egBrainPos` open. -/
def egBrainOpen : Brain.State :=
  { Brain.defaultState 0 with position := some egBrainPos }

/-- Counterexample to C5 as stated: the brain-driven revision's `tick`
(lines 201-244) performs no finiteness check, so a NaN price with an open
position corrupts `equity` and `peakEquity` — engine state well beyond
signal bookkeeping is mutated (silently, with no error). -/
theorem c5_counterexample :
    egBrainOpen.equity = JsNum.num 100000 ∧
    egBrainOpen.peakEquity = JsNum.num 100000 ∧
    (Brain.tick egBrain 0 "BTCUSDT" JsNum.nan 0 egBrainOpen).equity = JsNum.nan ∧
    (Brain.tick egBrain 0 "BTCUSDT" JsNum.nan 0 egBrainOpen).peakEquity = JsNum.nan := by
  refine ⟨rfl, rfl, ?_, ?_⟩ <;>
    norm_num [Brain.tick, Brain.resetDayIfNeeded, Brain.updateEquity,
      Brain.checkDrawdown, Brain.defaultState, Brain.WARMUP_TICKS,
      Brain.MAX_DRAWDOWN_PCT, egBrainOpen, egBrainPos, egBrain, dayKeyOf,
      setAssoc, JsNum.nan_sub, JsNum.nan_mul, JsNum.add_nan, JsNum.jmax_nan,
      JsNum.sub_nan, JsNum.nan_div, JsNum.ge_nan]

/-- C6 (amended part): `updateConfig` never rejects a patch; it spreads
every patch key into the config — including keys outside the declared
knob set — and then clamps `BASE_RISK_PCT` into `[0.5%, 50%]`,
`MAX_RISK_PCT` into `[BASE_RISK_PCT, 90%]`, `TRADING_WALLET_CAP` to be
nonnegative and `MAX_TRADES_PER_DAY` to be at least 1. -/
theorem c6_config_patch_amended :
    ∀ (p : Wallet.ConfigPatch) (s : Wallet.State),
      (5 / 1000 ≤ (Wallet.updateConfig p s).config.BASE_RISK_PCT ∧
        (Wallet.updateConfig p s).config.BASE_RISK_PCT ≤ 1 / 2) ∧
      ((Wallet.updateConfig p s).config.BASE_RISK_PCT ≤
          (Wallet.updateConfig p s).config.MAX_RISK_PCT ∧
        (Wallet.updateConfig p s).config.MAX_RISK_PCT ≤ 9 / 10) ∧
      0 ≤ (Wallet.updateConfig p s).config.TRADING_WALLET_CAP ∧
      1 ≤ (Wallet.updateConfig p s).config.MAX_TRADES_PER_DAY ∧
      (Wallet.updateConfig p s).config.extras = (Wallet.spreadConfig s.config p).extras := by
  intro p s
  unfold Wallet.updateConfig
  dsimp only
  refine ⟨⟨le_jsClamp_left _ _ _, jsClamp_le_right (by norm_num)⟩,
    ⟨le_jsClamp_left _ _ _,
      jsClamp_le_right (le_trans (jsClamp_le_right (by norm_num)) (by norm_num))⟩,
    le_max_left 0 _, le_max_left 1 _, rfl⟩

/-- A patch whose only content is a key outside the declared knob set. -/
def egUnknownPatch : Wallet.ConfigPatch := { extras := [("EXOTIC_KEY", 123)] }

/-- Counterexample to C6 as stated: a patch key outside the whitelist is
not ignored — the resulting config acquires it (`updateConfig` spreads
the whole patch object into the config). -/
theorem c6_counterexample :
    egBase.config.extras = [] ∧
    (Wallet.updateConfig egUnknownPatch egBase).config.extras =
      [("EXOTIC_KEY", 123)] := by
  constructor
  · rfl
  · rfl

namespace Wallet

theorem maybeExit_halted_true {now : ℚ} {symbol : String} {price ts : ℚ}
    {s : State} (h : s.limits.halted = true) :
    (maybeExit now symbol price ts s).limits.halted = true := by
  unfold maybeExit
  split
  · exact h
  · split
    · exact h
    · split
      · rw [maybeTopUp_limits, sweepOverflow_limits]
        exact checkDrawdown_halted_true (by rw [settleClose_limits]; exact h)
      · exact h

theorem maybeEnter_halted_frame {now : ℚ} {symbol : String} {price ts : ℚ}
    {s : State} (h : s.limits.halted = true) :
    (maybeEnter now symbol price ts s).limits.halted = true ∧
    (maybeEnter now symbol price ts s).position = s.position := by
  unfold maybeEnter
  rw [enterGates_frame_halted (by rw [setSignalStats_limits]; exact h)]
  exact ⟨by rw [waitWith_limits, setSignalStats_limits]; exact h,
    by rw [waitWith_position, setSignalStats_position]⟩

theorem tick_halted_sticky {now : ℚ} {a : String} {b : JsNum} {c : ℚ}
    {s : State} (h : s.limits.halted = true) :
    (tick now a b c s).limits.halted = true ∧
    ((tick now a b c s).position = s.position ∨ (tick now a b c s).position = none) := by
  unfold tick
  split
  · exact ⟨h, Or.inl rfl⟩
  · cases b with
    | nan => exact ⟨h, Or.inl rfl⟩
    | num p =>
      dsimp only
      constructor
      · rw [trimTrades_limits]
        exact (maybeEnter_halted_frame (maybeExit_halted_true
          (by rw [recordTick_limits, checkDaily_halted]; exact h))).1
      · rw [trimTrades_position,
          (maybeEnter_halted_frame (maybeExit_halted_true
            (by rw [recordTick_limits, checkDaily_halted]; exact h))).2]
        rcases maybeExit_position_cases now (if a = "" then "BTCUSDT" else a) p
            (if c = 0 then now else c)
            (recordTick (if a = "" then "BTCUSDT" else a) p (if c = 0 then now else c)
              (checkDaily (if c = 0 then now else c) s)) with hc | hc
        · rw [hc, recordTick_position, checkDaily_position]
          exact Or.inl rfl
        · rw [hc]
          exact Or.inr rfl

end Wallet

/-- C7 (amended part): in the wallet-model revision the drawdown halt is
sticky — the daily rollover (`checkDaily`) never touches the halted flag,
and once the flag is set every subsequent tick keeps it set and never
opens a new position (the open-position slot can only stay as it is or be
cleared by an exit), until an explicit reset. -/
theorem c7_drawdown_halt_sticky :
    (∀ (ts : ℚ) (s : Wallet.State),
        (Wallet.checkDaily ts s).limits.halted = s.limits.halted) ∧
    (∀ (now : ℚ) (a : String) (b : JsNum) (c : ℚ) (s : Wallet.State),
        s.limits.halted = true →
        (Wallet.tick now a b c s).limits.halted = true ∧
        ((Wallet.tick now a b c s).position = s.position ∨
          (Wallet.tick now a b c s).position = none)) := by
  refine ⟨Wallet.checkDaily_halted, ?_⟩
  intro now a b c s h
  exact Wallet.tick_halted_sticky h

/-- A halted `part_014` limits record on day 0. -/
def egHaltedLimits : Rev14.Limits :=
  { tradesToday := 5, dayKey := 0, lastTradeTs := 3, halted := true,
    haltReason := some "max_drawdown_25pct" }

/-- Counterexample to C7 as stated: the `part_014` revision's daily
rollover (`checkDailyReset`, lines 187-196) clears the halted flag when
the calendar day changes — the drawdown halt does not survive a UTC day
rollover there. -/
theorem c7_counterexample :
    egHaltedLimits.halted = true ∧
    (Rev14.checkDailyReset 86400000 egHaltedLimits).halted = false := by
  constructor
  · rfl
  · norm_num [Rev14.checkDailyReset, dayKeyOf, egHaltedLimits]

/-- Witness for C7: a halted default state stays halted through a tick on
a later day, with no position opened. -/
theorem c7_drawdown_halt_sticky_witness :
    ({ egBase with limits := { egBase.limits with halted := true } } :
        Wallet.State).limits.halted = true ∧
    (Wallet.tick 86400000 "BTCUSDT" (JsNum.num 100) 86400000
        { egBase with limits := { egBase.limits with halted := true } }).limits.halted
      = true :=
  ⟨rfl, (c7_drawdown_halt_sticky.2 86400000 "BTCUSDT" (JsNum.num 100) 86400000
    { egBase with limits := { egBase.limits with halted := true } } rfl).1⟩

namespace Wallet

theorem settleClose_trades_get (price ts : ℚ) (s : State) (pos : Position) :
    (settleClose price ts s pos).trades.get? s.trades.length =
      some { time := ts, symbol := pos.symbol, type := "SELL", price := price,
             qty := pos.qty, usd := pos.qty * price, cost := none,
             profit := some ((price - pos.entry) * pos.qty - pos.entryCosts -
               pos.qty * price * s.config.FEE_RATE),
             gross := some ((price - pos.entry) * pos.qty),
             fees := some (pos.qty * price * s.config.FEE_RATE),
             note := if (price - pos.entry) / pos.entry ≥ s.config.TAKE_PROFIT_PCT
               then "take_profit" else "stop_loss" } := by
  unfold settleClose applyExitFee
  dsimp only
  exact List.get?_concat_length _ _

theorem sweepOverflow_trades_get (now : ℚ) (s : State) {n : ℕ}
    (h : n < s.trades.length) :
    (sweepOverflow now s).trades.get? n = s.trades.get? n := by
  simp only [sweepOverflow]
  split
  · rfl
  · split
    · dsimp only
      rw [List.get?_append h]
    · rfl

theorem sweepOverflow_trades_length_le (now : ℚ) (s : State) :
    s.trades.length ≤ (sweepOverflow now s).trades.length := by
  simp only [sweepOverflow]
  split
  · exact le_refl _
  · split
    · dsimp only
      simp
    · exact le_refl _

theorem maybeTopUp_trades_get (now : ℚ) (s : State) {n : ℕ}
    (h : n < s.trades.length) :
    (maybeTopUpFromStorehouse now s).trades.get? n = s.trades.get? n := by
  simp only [maybeTopUpFromStorehouse]
  split
  · rfl
  · split
    · rfl
    · split
      · rfl
      · dsimp only
        rw [List.get?_append h]

theorem settleClose_trades_length (price ts : ℚ) (s : State) (pos : Position) :
    s.trades.length < (settleClose price ts s pos).trades.length := by
  unfold settleClose
  dsimp only
  simp

end Wallet

/-- C4 (amended part): on a tick matching the open position's symbol, the
position is closed exactly when `priceChangePct ≥ takeProfitPct` or
`priceChangePct ≤ -stopLossPct`; the SELL record's reason is
"take_profit" whenever the take-profit condition holds (priority over
stop-loss on ties) and "stop_loss" otherwise.  No expiry condition
exists: the decision is independent of the tick timestamp and of how long
the position has been open. -/
theorem c4_exit_triggers_amended :
    ∀ (now : ℚ) (symbol : String) (price ts : ℚ) (s : Wallet.State)
      (pos : Wallet.Position),
      s.position = some pos → pos.symbol = symbol →
      (((price - pos.entry) / pos.entry ≥ s.config.TAKE_PROFIT_PCT ∨
          (price - pos.entry) / pos.entry ≤ -s.config.STOP_LOSS_PCT) →
        (Wallet.maybeExit now symbol price ts s).position = none ∧
        ((Wallet.maybeExit now symbol price ts s).trades.get? s.trades.length).map
            (fun r => (r.type, r.note)) =
          some ("SELL",
            if (price - pos.entry) / pos.entry ≥ s.config.TAKE_PROFIT_PCT
            then "take_profit" else "stop_loss")) ∧
      (¬ ((price - pos.entry) / pos.entry ≥ s.config.TAKE_PROFIT_PCT ∨
          (price - pos.entry) / pos.entry ≤ -s.config.STOP_LOSS_PCT) →
        (Wallet.maybeExit now symbol price ts s).position = some pos ∧
        (Wallet.maybeExit now symbol price ts s).trades = s.trades) := by
  intro now symbol price ts s pos h hsym
  unfold Wallet.maybeExit
  split
  · rename_i heq
    rw [h] at heq
    exact absurd heq (by simp)
  · rename_i pos2 heq
    rw [h] at heq
    injection heq with heq2
    subst heq2
    split
    · rename_i hne
      exact absurd hsym hne
    · have hlen1 := Wallet.settleClose_trades_length price ts s pos
      have hlen2 : s.trades.length <
          (Wallet.checkDrawdown (Wallet.settleClose price ts s pos)).trades.length := by
        rw [Wallet.checkDrawdown_trades]
        exact hlen1
      have hlen3 : s.trades.length <
          (Wallet.sweepOverflow now
            (Wallet.checkDrawdown (Wallet.settleClose price ts s pos))).trades.length :=
        lt_of_lt_of_le hlen2 (Wallet.sweepOverflow_trades_length_le now _)
      split
      · rename_i hcond
        constructor
        · intro _
          constructor
          · rw [Wallet.maybeTopUp_position, Wallet.sweepOverflow_position,
              Wallet.checkDrawdown_position, Wallet.settleClose_position]
          · rw [Wallet.maybeTopUp_trades_get now _ hlen3,
              Wallet.sweepOverflow_trades_get now _ hlen2,
              Wallet.checkDrawdown_trades, Wallet.settleClose_trades_get]
            rfl
        · intro hn
          exact absurd hcond hn
      · rename_i hnc
        constructor
        · intro hc
          exact absurd hc hnc
        · intro _
          exact ⟨h, rfl⟩

/-- Counterexample to C4 as stated: no expiry trigger exists.  A tick for
the position's own symbol arriving more than a full day after entry, with
the price exactly at entry (so neither take-profit nor stop-loss holds),
leaves the position open — it is never closed with reason "expiry". -/
theorem c4_counterexample :
    (1000000000000000 : ℚ) ≥ egPosition.entryTs + 86400000 ∧
    (Wallet.maybeExit 1000000000000000 "BTCUSDT" 100 1000000000000000
        egOpenState).position = some egPosition := by
  constructor
  · norm_num [egPosition]
  · norm_num [Wallet.maybeExit, egOpenState, egBase, egPosition,
      Wallet.defaultState, Wallet.TAKE_PROFIT_PCT_DEFAULT,
      Wallet.STOP_LOSS_PCT_DEFAULT]

/-- Witness for C4: a tick at price 100.4 on a position entered at 100
with the default 0.4% take-profit closes it with reason "take_profit". -/
theorem c4_exit_triggers_amended_witness :
    egOpenState.position = some egPosition ∧
    (Wallet.maybeExit 5 "BTCUSDT" (502 / 5) 5 egOpenState).position = none ∧
    ((Wallet.maybeExit 5 "BTCUSDT" (502 / 5) 5 egOpenState).trades.get?
        egOpenState.trades.length).map (fun r => (r.type, r.note)) =
      some ("SELL", "take_profit") := by
  have hc : ((502 : ℚ) / 5 - egPosition.entry) / egPosition.entry ≥
      egOpenState.config.TAKE_PROFIT_PCT := by
    norm_num [egPosition, egOpenState, egBase, Wallet.defaultState,
      Wallet.TAKE_PROFIT_PCT_DEFAULT]
  have h := (c4_exit_triggers_amended 5 "BTCUSDT" (502 / 5) 5 egOpenState
    egPosition rfl rfl).1 (Or.inl hc)
  rw [if_pos hc] at h
  exact ⟨rfl, h.1, h.2⟩

namespace Wallet

theorem settleClose_trading (price ts : ℚ) (s : State) (pos : Position) :
    (settleClose price ts s pos).wallets.trading =
      s.wallets.trading + ((price - pos.entry) * pos.qty - pos.entryCosts -
        pos.qty * price * s.config.FEE_RATE) := rfl

theorem settleClose_storehouse (price ts : ℚ) (s : State) (pos : Position) :
    (settleClose price ts s pos).wallets.storehouse = s.wallets.storehouse := rfl

theorem settleClose_owner (price ts : ℚ) (s : State) (pos : Position) :
    (settleClose price ts s pos).wallets.owner = s.wallets.owner := rfl

theorem settleClose_config (price ts : ℚ) (s : State) (pos : Position) :
    (settleClose price ts s pos).config = s.config := rfl

theorem checkDrawdown_config (s : State) :
    (checkDrawdown s).config = s.config := by
  simp only [checkDrawdown]
  split <;> rfl

theorem settleClose_total (price ts : ℚ) (s : State) (pos : Position) :
    walletsTotal (settleClose price ts s pos).wallets =
      walletsTotal s.wallets + ((price - pos.entry) * pos.qty - pos.entryCosts -
        pos.qty * price * s.config.FEE_RATE) := by
  unfold walletsTotal
  rw [settleClose_trading, settleClose_storehouse, settleClose_owner]
  ring

end Wallet

/-- C3 (amended part): when `maybeExit` closes a trade at price `p`, the
settlement is exact: `netPnl = grossPnl - entryCosts - exitFee` with
`grossPnl = (p - entryPrice) * quantity` and
`exitFee = quantity * p * feeRate` is recorded bit-for-bit on the SELL
record; the total money across the three wallets grows by exactly
`netPnl`; and whenever the post-close trading balance triggers neither
the overflow sweep nor the storehouse top-up, the trading wallet itself
satisfies `cash_after = cash_before + netPnl` exactly. -/
theorem c3_cash_conservation_on_close :
    ∀ (now : ℚ) (symbol : String) (price ts : ℚ) (s : Wallet.State)
      (pos : Wallet.Position),
      s.position = some pos → pos.symbol = symbol →
      ((price - pos.entry) / pos.entry ≥ s.config.TAKE_PROFIT_PCT ∨
        (price - pos.entry) / pos.entry ≤ -s.config.STOP_LOSS_PCT) →
      Wallet.walletsTotal (Wallet.maybeExit now symbol price ts s).wallets =
        Wallet.walletsTotal s.wallets +
          ((price - pos.entry) * pos.qty - pos.entryCosts -
            pos.qty * price * s.config.FEE_RATE) ∧
      ((Wallet.maybeExit now symbol price ts s).trades.get? s.trades.length).map
          (fun r => r.profit) =
        some (some ((price - pos.entry) * pos.qty - pos.entryCosts -
          pos.qty * price * s.config.FEE_RATE)) ∧
      (s.wallets.trading + ((price - pos.entry) * pos.qty - pos.entryCosts -
            pos.qty * price * s.config.FEE_RATE) ≤ s.config.TRADING_WALLET_CAP →
        s.config.TOPUP_TRIGGER < s.wallets.trading +
            ((price - pos.entry) * pos.qty - pos.entryCosts -
              pos.qty * price * s.config.FEE_RATE) →
        (Wallet.maybeExit now symbol price ts s).wallets.trading =
          s.wallets.trading + ((price - pos.entry) * pos.qty - pos.entryCosts -
            pos.qty * price * s.config.FEE_RATE)) := by
  intro now symbol price ts s pos h hsym hcond
  unfold Wallet.maybeExit
  split
  · rename_i heq
    rw [h] at heq
    exact absurd heq (by simp)
  · rename_i pos2 heq
    rw [h] at heq
    injection heq with heq2
    subst heq2
    rw [if_neg (show ¬ (pos.symbol ≠ symbol) by simp [hsym]), if_pos hcond]
    have hlen1 := Wallet.settleClose_trades_length price ts s pos
    have hlen2 : s.trades.length <
        (Wallet.checkDrawdown (Wallet.settleClose price ts s pos)).trades.length := by
      rw [Wallet.checkDrawdown_trades]
      exact hlen1
    have hlen3 : s.trades.length <
        (Wallet.sweepOverflow now
          (Wallet.checkDrawdown (Wallet.settleClose price ts s pos))).trades.length :=
      lt_of_lt_of_le hlen2 (Wallet.sweepOverflow_trades_length_le now _)
    refine ⟨?_, ?_, ?_⟩
    · rw [Wallet.maybeTopUp_total, Wallet.sweepOverflow_total]
      show Wallet.walletsTotal (Wallet.checkDrawdown _).wallets = _
      rw [Wallet.checkDrawdown_wallets]
      exact Wallet.settleClose_total price ts s pos
    · rw [Wallet.maybeTopUp_trades_get now _ hlen3,
        Wallet.sweepOverflow_trades_get now _ hlen2,
        Wallet.checkDrawdown_trades, Wallet.settleClose_trades_get]
      rfl
    · intro hsw htp
      have hw : (Wallet.checkDrawdown (Wallet.settleClose price ts s pos)).wallets =
          (Wallet.settleClose price ts s pos).wallets :=
        Wallet.checkDrawdown_wallets _
      have hsw2 : (Wallet.checkDrawdown
          (Wallet.settleClose price ts s pos)).wallets.trading ≤
          (Wallet.checkDrawdown
            (Wallet.settleClose price ts s pos)).config.TRADING_WALLET_CAP := by
        rw [hw, Wallet.checkDrawdown_config, Wallet.settleClose_trading,
          Wallet.settleClose_config]
        exact hsw
      rw [Wallet.sweepOverflow_of_le hsw2]
      have htp2 : (Wallet.checkDrawdown
          (Wallet.settleClose price ts s pos)).config.TOPUP_TRIGGER <
          (Wallet.checkDrawdown
            (Wallet.settleClose price ts s pos)).wallets.trading := by
        rw [hw, Wallet.checkDrawdown_config, Wallet.settleClose_trading,
          Wallet.settleClose_config]
        exact htp
      rw [Wallet.maybeTopUp_of_gt htp2, hw, Wallet.settleClose_trading]

/-- Witness for C3: closing the example position at 100.4 (a take-profit
hit) credits the trading wallet with exactly
`netPnl = grossPnl - entryCosts - exitFee`. -/
theorem c3_cash_conservation_on_close_witness :
    egOpenState.position = some egPosition ∧
    Wallet.walletsTotal (Wallet.maybeExit 5 "BTCUSDT" (502 / 5) 5 egOpenState).wallets =
      Wallet.walletsTotal egOpenState.wallets +
        ((502 / 5 - egPosition.entry) * egPosition.qty - egPosition.entryCosts -
          egPosition.qty * (502 / 5) * egOpenState.config.FEE_RATE) ∧
    (Wallet.maybeExit 5 "BTCUSDT" (502 / 5) 5 egOpenState).wallets.trading =
      egOpenState.wallets.trading +
        ((502 / 5 - egPosition.entry) * egPosition.qty - egPosition.entryCosts -
          egPosition.qty * (502 / 5) * egOpenState.config.FEE_RATE) := by
  have hc : ((502 : ℚ) / 5 - egPosition.entry) / egPosition.entry ≥
      egOpenState.config.TAKE_PROFIT_PCT := by
    norm_num [egPosition, egOpenState, egBase, Wallet.defaultState,
      Wallet.TAKE_PROFIT_PCT_DEFAULT]
  have h := c3_cash_conservation_on_close 5 "BTCUSDT" (502 / 5) 5 egOpenState
    egPosition rfl rfl (Or.inl hc)
  refine ⟨rfl, h.1, h.2.2 ?_ ?_⟩
  · norm_num [egPosition, egOpenState, egBase, Wallet.defaultState,
      Wallet.START_TRADING_WALLET, Wallet.TRADING_WALLET_CAP_DEFAULT,
      Wallet.FEE_RATE_DEFAULT]
  · norm_num [egPosition, egOpenState, egBase, Wallet.defaultState,
      Wallet.START_TRADING_WALLET, Wallet.TOPUP_TRIGGER_DEFAULT,
      Wallet.FEE_RATE_DEFAULT]

namespace Wallet

theorem setSignalStats_wallets (s : State) (sig : Signals) :
    (setSignalStats s sig).wallets = s.wallets := rfl

theorem setSignalStats_config (s : State) (sig : Signals) :
    (setSignalStats s sig).config = s.config := rfl

theorem setSignalStats_ticksSeen (s : State) (sig : Signals) :
    (setSignalStats s sig).learnStats.ticksSeen = s.learnStats.ticksSeen := rfl

theorem setSignalStats_confidence (s : State) (sig : Signals) :
    (setSignalStats s sig).learnStats.confidence = sig.conf := rfl

theorem setSignalStats_trendEdge (s : State) (sig : Signals) :
    (setSignalStats s sig).learnStats.trendEdge = sig.edge := rfl

theorem expectedNetAtTP_setSignalStats (s : State) (sig : Signals) :
    expectedNetAtTP (setSignalStats s sig) = expectedNetAtTP s := rfl

theorem entryNotional_setSignalStats (s : State) (sig : Signals) :
    entryNotional (setSignalStats s sig) = entryNotional s := rfl

/-- If the configured take-profit percentage does not exceed the
round-trip cost rate, no path of the gate chain appends a trade: every
rejection is a pure `learnStats` (or halt-flag) update, and the entry
block is unreachable because the profitability gate requires
`TAKE_PROFIT_PCT > totalRoundTripCostRate`. -/
theorem maybeEnter_no_buy_of_tp_le {now : ℚ} {symbol : String} {price ts : ℚ}
    {s : State} (h : s.config.TAKE_PROFIT_PCT ≤ totalRoundTripCostRate s.config) :
    (maybeEnter now symbol price ts s).trades = s.trades := by
  unfold maybeEnter enterGates
  split
  · rfl
  split
  · rfl
  split
  · rfl
  split
  · rfl
  split
  · rfl
  split
  · rfl
  rename_i hc
  exfalso
  have hc2 : canTradeProfitablyAtTP
      (setSignalStats s (computeSignals s symbol)).config = true :=
    not_not.mp hc
  rw [setSignalStats_config] at hc2
  have hlt : totalRoundTripCostRate s.config < s.config.TAKE_PROFIT_PCT := by
    simpa [canTradeProfitablyAtTP, decide_eq_true_eq] using hc2
  exact absurd hlt (not_lt.mpr h)

/-- If `maybeEnter` changed the position slot, the entry block ran, so
every gate passed: in particular the take-profit percentage strictly
exceeds the round-trip cost rate and the expected net at take-profit
meets the minimum. -/
theorem maybeEnter_entry_implies_gates {now : ℚ} {symbol : String}
    {price ts : ℚ} {s : State}
    (h : (maybeEnter now symbol price ts s).position ≠ s.position) :
    totalRoundTripCostRate s.config < s.config.TAKE_PROFIT_PCT ∧
    s.config.MIN_NET_TP_USD ≤ expectedNetAtTP s := by
  unfold maybeEnter enterGates at h
  split at h
  · exact absurd rfl h
  split at h
  · exact absurd rfl h
  split at h
  · exact absurd rfl h
  split at h
  · exact absurd rfl h
  split at h
  · exact absurd rfl h
  split at h
  · exact absurd rfl h
  split at h
  · exact absurd rfl h
  split at h
  · exact absurd rfl h
  split at h
  · exact absurd rfl h
  split at h
  · exact absurd rfl h
  rename_i hc hconf hedge hn hw
  constructor
  · have hc2 : canTradeProfitablyAtTP
        (setSignalStats s (computeSignals s symbol)).config = true :=
      not_not.mp hc
    rw [setSignalStats_config] at hc2
    simpa [canTradeProfitablyAtTP, decide_eq_true_eq] using hc2
  · have hn2 := not_lt.mp hn
    rw [expectedNetAtTP_setSignalStats, setSignalStats_config] at hn2
    exact hn2

end Wallet

/-- A ten-price buffer doubling at every tick: all tick-to-tick returns
are exactly 1, so the return variance is exactly 0, while the early-third
to late-third drift is large. -/
def geomBuf : List ℚ := [1, 2, 4, 8, 16, 32, 64, 128, 256, 512]

/-- A warmed-up default state holding `geomBuf` for BTCUSDT, with the
take-profit knob at 0.7% — above the 0.66% round-trip cost rate but
below 1.25 times it — and the per-trade cap raised to 5000 (both fields
reachable through `updateConfig`, which clamps neither). -/
def egGateState : Wallet.State :=
  { egBase with
    learnStats := { egBase.learnStats with ticksSeen := 300 },
    config := { egBase.config with
                  TAKE_PROFIT_PCT := 7 / 1000,
                  MAX_USD_PER_TRADE := 5000 },
    buf := [("BTCUSDT", geomBuf)] }

theorem ratSqrt_zero : Rat.sqrt 0 = 0 := rfl

/-- The signals of `egGateState`: zero normalized volatility (all returns
equal), drift `713/7`, full confidence. -/
theorem egGateState_signals : Wallet.computeSignals egGateState "BTCUSDT" =
    { vol := 0, edge := 713 / 7, conf := 1, reason := "edge_detected" } := by
  have hb : lookupBuf egGateState.buf "BTCUSDT" = geomBuf := by
    norm_num [lookupBuf, egGateState, geomBuf]
  have hr : List.range 9 = [0, 1, 2, 3, 4, 5, 6, 7, 8] := rfl
  unfold Wallet.computeSignals Wallet.computeSignalsFull
  rw [hb]
  norm_num [geomBuf, hr, jsStd, jsMean, jsClamp, ratSqrt_zero, egGateState,
    egBase, Wallet.defaultState, Wallet.WARMUP_TICKS_DEFAULT,
    Wallet.MIN_EDGE_DEFAULT, List.getD, max_def, min_def, abs_of_pos,
    abs_of_nonneg]

/-- On `egGateState` every entry gate passes and `maybeEnter` reaches the
entry block. -/
theorem egGateState_enters :
    Wallet.maybeEnter 1000000000000 "BTCUSDT" 512 1000000000000 egGateState =
      Wallet.enterPosition "BTCUSDT" 512 1000000000000
        (Wallet.setSignalStats egGateState
          (Wallet.computeSignals egGateState "BTCUSDT")) := by
  unfold Wallet.maybeEnter Wallet.enterGates
  set S := Wallet.setSignalStats egGateState
    (Wallet.computeSignals egGateState "BTCUSDT") with hS
  have h1 : ¬ (S.limits.halted = true) := by
    rw [hS, Wallet.setSignalStats_limits]
    norm_num [egGateState, egBase, Wallet.defaultState]
  have h2 : ¬ (S.position.isSome = true) := by
    rw [hS]
    show ¬ (egGateState.position.isSome = true)
    norm_num [egGateState, egBase, Wallet.defaultState]
  have h3 : ¬ (S.learnStats.ticksSeen < S.config.WARMUP_TICKS) := by
    rw [hS, Wallet.setSignalStats_ticksSeen, Wallet.setSignalStats_config]
    norm_num [egGateState, egBase, Wallet.defaultState, Wallet.WARMUP_TICKS_DEFAULT]
  have h4 : ¬ ((1000000000000 : ℚ) - S.limits.lastTradeTs < S.config.COOLDOWN_MS) := by
    rw [hS, Wallet.setSignalStats_limits, Wallet.setSignalStats_config]
    norm_num [egGateState, egBase, Wallet.defaultState, Wallet.COOLDOWN_MS_DEFAULT]
  have h5 : ¬ (S.limits.tradesToday ≥ S.config.MAX_TRADES_PER_DAY) := by
    rw [hS, Wallet.setSignalStats_limits, Wallet.setSignalStats_config]
    norm_num [egGateState, egBase, Wallet.defaultState, Wallet.MAX_TRADES_PER_DAY_DEFAULT]
  have h6 : ¬ ¬ (Wallet.canTradeProfitablyAtTP S.config = true) := by
    rw [hS, Wallet.setSignalStats_config]
    norm_num [Wallet.canTradeProfitablyAtTP, Wallet.totalRoundTripCostRate,
      egGateState, egBase, Wallet.defaultState, Wallet.FEE_RATE_DEFAULT,
      Wallet.SPREAD_BP_DEFAULT, Wallet.SLIPPAGE_BP_DEFAULT]
  have h7 : ¬ (S.learnStats.confidence < 55 / 100) := by
    rw [hS, Wallet.setSignalStats_confidence, egGateState_signals]
    norm_num
  have h8 : ¬ (|S.learnStats.trendEdge| < S.config.MIN_EDGE) := by
    rw [hS, Wallet.setSignalStats_trendEdge, Wallet.setSignalStats_config,
      egGateState_signals]
    norm_num [egGateState, egBase, Wallet.defaultState, Wallet.MIN_EDGE_DEFAULT,
      abs_of_pos]
  have h9 : ¬ (Wallet.expectedNetAtTP S < S.config.MIN_NET_TP_USD) := by
    rw [hS, Wallet.expectedNetAtTP_setSignalStats, Wallet.setSignalStats_config]
    norm_num [Wallet.expectedNetAtTP, Wallet.entryNotional, Wallet.currentRiskPct,
      Wallet.totalRoundTripCostRate, jsClamp, min_def, max_def, egGateState,
      egBase, Wallet.defaultState, Wallet.FEE_RATE_DEFAULT, Wallet.SPREAD_BP_DEFAULT,
      Wallet.SLIPPAGE_BP_DEFAULT, Wallet.MIN_NET_TP_USD_DEFAULT,
      Wallet.MIN_USD_PER_TRADE_DEFAULT, Wallet.BASE_RISK_PCT_DEFAULT,
      Wallet.MAX_RISK_PCT_DEFAULT, Wallet.START_TRADING_WALLET]
  have h10 : ¬ (S.wallets.trading ≤
      Wallet.entryNotional S * Wallet.entryCostRate S.config + 1) := by
    rw [hS, Wallet.setSignalStats_wallets, Wallet.entryNotional_setSignalStats,
      Wallet.setSignalStats_config]
    norm_num [Wallet.entryNotional, Wallet.currentRiskPct, Wallet.entryCostRate,
      jsClamp, min_def, max_def, egGateState, egBase, Wallet.defaultState,
      Wallet.FEE_RATE_DEFAULT, Wallet.SPREAD_BP_DEFAULT, Wallet.SLIPPAGE_BP_DEFAULT,
      Wallet.MIN_USD_PER_TRADE_DEFAULT, Wallet.BASE_RISK_PCT_DEFAULT,
      Wallet.MAX_RISK_PCT_DEFAULT, Wallet.START_TRADING_WALLET]
  rw [if_neg h1, if_neg h2, if_neg h3, if_neg h4, if_neg h5, if_neg h6,
    if_neg h7, if_neg h8, if_neg h9, if_neg h10]

/-- The entry on `egGateState` appends exactly one BUY record with a
notional of 3000 and fills the position slot. -/
theorem egGateState_buy :
    (Wallet.maybeEnter 1000000000000 "BTCUSDT" 512 1000000000000
        egGateState).trades.map (fun r => (r.type, r.usd)) = [("BUY", 3000)] ∧
    (Wallet.maybeEnter 1000000000000 "BTCUSDT" 512 1000000000000
        egGateState).position ≠ egGateState.position := by
  rw [egGateState_enters]
  constructor
  · norm_num [Wallet.enterPosition, Wallet.setSignalStats, Wallet.entryNotional,
      Wallet.currentRiskPct, jsClamp, min_def, max_def, egGateState, egBase,
      Wallet.defaultState, Wallet.MIN_USD_PER_TRADE_DEFAULT,
      Wallet.BASE_RISK_PCT_DEFAULT, Wallet.MAX_RISK_PCT_DEFAULT,
      Wallet.START_TRADING_WALLET]
  · show some _ ≠ egGateState.position
    rw [show egGateState.position = none from rfl]
    exact Option.some_ne_none _

/-- C8 (amended part): the only cost gates on entry are
`TAKE_PROFIT_PCT > totalRoundTripCostRate` (no 1.25x buffer multiplier
exists) and `expectedNetAtTP ≥ MIN_NET_TP_USD`.  Concretely: when the
take-profit percentage does not exceed the round-trip cost rate no BUY is
ever appended, and whenever an entry does happen both gates held. -/
theorem c8_cost_gate_amended :
    (∀ (now : ℚ) (symbol : String) (price ts : ℚ) (s : Wallet.State),
        s.config.TAKE_PROFIT_PCT ≤ Wallet.totalRoundTripCostRate s.config →
        (Wallet.maybeEnter now symbol price ts s).trades = s.trades) ∧
    (∀ (now : ℚ) (symbol : String) (price ts : ℚ) (s : Wallet.State),
        (Wallet.maybeEnter now symbol price ts s).position ≠ s.position →
        Wallet.totalRoundTripCostRate s.config < s.config.TAKE_PROFIT_PCT ∧
        s.config.MIN_NET_TP_USD ≤ Wallet.expectedNetAtTP s) := by
  constructor
  · intro now symbol price ts s h
    exact Wallet.maybeEnter_no_buy_of_tp_le h
  · intro now symbol price ts s h
    exact Wallet.maybeEnter_entry_implies_gates h

/-- Counterexample to C8 as stated: with the take-profit knob at 0.7% —
so that `takeProfitPct * notional < roundTripCost * 1.25` for the 3000
notional — a BUY record is still produced: the source's
`canTradeProfitablyAtTP` uses no 1.25x cost-buffer multiplier. -/
theorem c8_counterexample :
    egGateState.config.TAKE_PROFIT_PCT * 3000 <
      Wallet.totalRoundTripCostRate egGateState.config * 3000 * (125 / 100) ∧
    (Wallet.maybeEnter 1000000000000 "BTCUSDT" 512 1000000000000
        egGateState).trades.map (fun r => (r.type, r.usd)) = [("BUY", 3000)] :=
  ⟨by
    norm_num [egGateState, egBase, Wallet.defaultState,
      Wallet.totalRoundTripCostRate, Wallet.FEE_RATE_DEFAULT,
      Wallet.SPREAD_BP_DEFAULT, Wallet.SLIPPAGE_BP_DEFAULT],
    egGateState_buy.1⟩

/-- Witness for C8: the entry on `egGateState` changed the position slot,
and the theorem recovers that both cost gates held there. -/
theorem c8_cost_gate_amended_witness :
    (Wallet.maybeEnter 1000000000000 "BTCUSDT" 512 1000000000000
        egGateState).position ≠ egGateState.position ∧
    (Wallet.totalRoundTripCostRate egGateState.config <
        egGateState.config.TAKE_PROFIT_PCT ∧
      egGateState.config.MIN_NET_TP_USD ≤ Wallet.expectedNetAtTP egGateState) :=
  ⟨egGateState_buy.2,
    c8_cost_gate_amended.2 1000000000000 "BTCUSDT" 512 1000000000000 egGateState
      egGateState_buy.2⟩

/-- C9: `computeSignals` returns the neutral signal with `confidence = 0`
below 10 buffered prices; otherwise the returned `volatilityNorm` lies in
`[0, 1]`, the warmup and edge factors are individually clamped into
`[0, 1]`, and the confidence is exactly
`clamp(0.55*warmupFactor + 0.55*edgeFactor, 0, 1) *
clamp(1 - 0.7*volatilityNorm, 0.2, 1)`.  (The engine's arithmetic is
modelled exactly over the rationals; a zero buffered price, which the
tick path never filters out, would yield non-finite JS arithmetic
instead.) -/
theorem c9_signal_computation :
    ∀ (s : Wallet.State) (symbol : String),
      ((lookupBuf s.buf symbol).length < 10 →
        Wallet.computeSignals s symbol =
          { vol := 0, edge := 0, conf := 0, reason := "collecting_more_data" }) ∧
      (10 ≤ (lookupBuf s.buf symbol).length →
        0 ≤ (Wallet.computeSignals s symbol).vol ∧
        (Wallet.computeSignals s symbol).vol ≤ 1 ∧
        0 ≤ jsClamp (s.learnStats.ticksSeen / s.config.WARMUP_TICKS) 0 1 ∧
        jsClamp (s.learnStats.ticksSeen / s.config.WARMUP_TICKS) 0 1 ≤ 1 ∧
        0 ≤ jsClamp (|(Wallet.computeSignals s symbol).edge| /
          (s.config.MIN_EDGE * 2)) 0 1 ∧
        jsClamp (|(Wallet.computeSignals s symbol).edge| /
          (s.config.MIN_EDGE * 2)) 0 1 ≤ 1 ∧
        (Wallet.computeSignals s symbol).conf =
          jsClamp (jsClamp (s.learnStats.ticksSeen / s.config.WARMUP_TICKS) 0 1 *
              (55 / 100) +
            jsClamp (|(Wallet.computeSignals s symbol).edge| /
              (s.config.MIN_EDGE * 2)) 0 1 * (55 / 100)) 0 1 *
          jsClamp (1 - (Wallet.computeSignals s symbol).vol * (7 / 10))
            (2 / 10) 1) := by
  intro s symbol
  constructor
  · intro h
    unfold Wallet.computeSignals
    rw [if_pos h]
  · intro h
    have hn : ¬ (lookupBuf s.buf symbol).length < 10 := not_lt.mpr h
    unfold Wallet.computeSignals
    rw [if_neg hn]
    refine ⟨le_jsClamp_left _ 0 1, jsClamp_le_right (by norm_num), jsClamp_nonneg,
      jsClamp_le_right (by norm_num), jsClamp_nonneg,
      jsClamp_le_right (by norm_num), ?_⟩
    rfl

/-- Witness for C9: the neutral branch on the empty default buffer, and
the bounds on the ten-price doubling buffer. -/
theorem c9_signal_computation_witness :
    (lookupBuf egBase.buf "BTCUSDT").length < 10 ∧
    Wallet.computeSignals egBase "BTCUSDT" =
      { vol := 0, edge := 0, conf := 0, reason := "collecting_more_data" } ∧
    10 ≤ (lookupBuf egGateState.buf "BTCUSDT").length ∧
    0 ≤ (Wallet.computeSignals egGateState "BTCUSDT").vol ∧
    (Wallet.computeSignals egGateState "BTCUSDT").vol ≤ 1 := by
  have h1 : (lookupBuf egBase.buf "BTCUSDT").length < 10 := by
    norm_num [lookupBuf, egBase, Wallet.defaultState]
  have h2 : 10 ≤ (lookupBuf egGateState.buf "BTCUSDT").length := by
    norm_num [lookupBuf, egGateState, geomBuf]
  have w2 := (c9_signal_computation egGateState "BTCUSDT").2 h2
  exact ⟨h1, (c9_signal_computation egBase "BTCUSDT").1 h1, h2, w2.1, w2.2.1⟩

namespace JsNum

theorem num_add (a b : ℚ) : num a + num b = num (a + b) := rfl

theorem num_sub (a b : ℚ) : num a - num b = num (a - b) := rfl

theorem num_mul (a b : ℚ) : num a * num b = num (a * b) := rfl

theorem jabs_num (a : ℚ) : jabs (num a) = num |a| := rfl

end JsNum

/-- A brain-revision state with 1000 of cash and `egBrainPos` open. -/
def egBrainClose : Brain.State :=
  { Brain.defaultState 0 with
    cashBalance := JsNum.num 1000,
    position := some egBrainPos }

/-- Counterexample to C3 as stated: the brain-driven revision's
`closePosition` (lines 174-197) credits `qty * price - exitFee` — the
position's full market value — so the cash balance afterwards is the
balance before plus the reserved notional plus the profit, not plus
`netPnl`.  Closing `{entry: 100, qty: 1}` at 110 from a cash balance of
1000 yields 1109.974, while `cash_before + netPnl` (with `grossPnl = 10`,
`entryCosts = 0`, the code's exit fee `|grossPnl| * feeRate = 0.026`)
would be 1009.974. -/
theorem c3_counterexample :
    (Brain.closePosition (JsNum.num 110) "take_profit" egBrainClose).cashBalance =
      JsNum.num (554987 / 500) ∧
    egBrainClose.cashBalance +
        JsNum.num (((110 : ℚ) - 100) * 1 - 0 - |((110 : ℚ) - 100) * 1| * Brain.FEE_RATE) =
      JsNum.num (504987 / 500) ∧
    (554987 : ℚ) / 500 ≠ 504987 / 500 := by
  refine ⟨?_, ?_, by norm_num⟩
  · norm_num [Brain.closePosition, egBrainClose, egBrainPos, Brain.defaultState,
      Brain.FEE_RATE, JsNum.num_add, JsNum.num_sub, JsNum.num_mul, JsNum.jabs_num,
      abs_of_nonneg]
  · norm_num [egBrainClose, Brain.defaultState, Brain.FEE_RATE, JsNum.num_add,
      abs_of_nonneg]
